import Mathlib

/-!
# Booster B1 low-level joint control example

A shallow embedding of `example/low_level/b1_low_sdk_example.cpp`: the
velocity-limited joint ramp ("lift" loop), the population of the command
message, and the shutdown loop with its weight ramp.

Numbers: the program computes in C++ `float`.  The file has two layers.
The loops, the frames, the step counts and the clamping of the weight are
stated with exact rationals (`ℚ`), the decimal literals standing for
themselves; what is proved there does not depend on rounding.  The numbers
that the ramp and the weight actually take are stated in single precision:
`f32` rounds a rational to the nearest `float` (ties to even), `f64` to the
nearest `double`, and the definitions under `F32` repeat the source lines
with every `float` operation rounded (`sleep_time` too is computed through
`f32`).  NaN, infinities, overflow and subnormal numbers are not modelled.
Arrays `std::array<T, 23>` are functions `Fin 23 → T`; the vector
`msg.motor_cmd()` is a `List`.
-/

namespace B1LowSdk

/-! ## The limiter -/

/-- The function `std::clamp(v, lo, hi)`:
`(v < lo) ? lo : (hi < v) ? hi : v`. -/
def clamp (v lo hi : ℚ) : ℚ :=
  if v < lo then lo else if hi < v then hi else v

/-- One execution of the statement
`current_jpos_des.at(j) += std::clamp(target_pos.at(j) - current_jpos_des.at(j),
-max_joint_delta, max_joint_delta)` for one joint: the new value of
`current_jpos_des.at(j)`, without the roundings of `float` (`F32.step` has
them). -/
def step (cur target maxDelta : ℚ) : ℚ :=
  cur + clamp (target - cur) (-maxDelta) maxDelta

/-- The loop `for (int j = 0; j < init_pos.size(); ++j)` of "update jpos des":
the joints are visited in order and `current_jpos_des` is updated in place
(without the roundings of `float`; `F32.updateJposDes` has them). -/
def updateJposDes (current_jpos_des target_pos : Fin 23 → ℚ) (max_joint_delta : ℚ) :
    Fin 23 → ℚ :=
  (List.finRange 23).foldl
    (fun cur j => Function.update cur j
      (cur j + clamp (target_pos j - cur j) (-max_joint_delta) max_joint_delta))
    current_jpos_des

/-- The commanded positions after `n` cycles of the lift loop (only the
"update jpos des" part of the loop body writes `current_jpos_des`). -/
def jposAfter (n : ℕ) (current_jpos_des target_pos : Fin 23 → ℚ) (max_joint_delta : ℚ) :
    Fin 23 → ℚ :=
  match n with
  | 0 => current_jpos_des
  | k + 1 => updateJposDes (jposAfter k current_jpos_des target_pos max_joint_delta)
      target_pos max_joint_delta

/-! ## The command message -/

/-- Modelled from the spec: the enumeration `booster_interface::msg::CmdType`,
declared in `booster/idl/b1/LowCmd.h`, which is not among the sources.  It is
the command-mode tag of the spec (independent-axis or parallel mode); the
program names the enumerators `PARALLEL` and `SERIAL`. -/
inductive CmdType where
  | PARALLEL
  | SERIAL
  deriving DecidableEq

/-- Modelled from the spec: the message `booster_interface::msg::MotorCmd`,
declared in `booster/idl/b1/MotorCmd.h`, which is not among the sources.  A
per-joint entry of the spec: position, velocity, kp, kd, torque; these are
the fields that the program writes through the setters `q`, `dq`, `kp`,
`kd`, `tau`. -/
structure MotorCmd where
  q : ℚ
  dq : ℚ
  tau : ℚ
  kp : ℚ
  kd : ℚ
  deriving DecidableEq

/-- Modelled from the spec: the message `booster_interface::msg::LowCmd`,
declared in `booster/idl/b1/LowCmd.h`, which is not among the sources.  The
program uses the command-mode tag `cmd_type` and the vector `motor_cmd` of
per-joint commands; the field `weight` follows the spec, which gives the
command frame a session-wide weight scalar next to them.  No statement of
the program reads or writes `weight` in the message. -/
structure LowCmd where
  cmd_type : CmdType
  motor_cmd : List MotorCmd
  weight : ℚ
  deriving DecidableEq

/-- Modelled from the spec: the value of a default-constructed `MotorCmd`
(`booster_interface::msg::MotorCmd motor_cmd;`); the constructor is declared
in `booster/idl/b1/MotorCmd.h`.  The spec calls the entry of an unaddressed
joint a neutral/zero entry. -/
def MotorCmd.init : MotorCmd :=
  { q := 0, dq := 0, tau := 0, kp := 0, kd := 0 }

/-- Modelled from the spec: the value of a default-constructed `LowCmd`
(`booster_interface::msg::LowCmd msg;`); the constructor is declared in
`booster/idl/b1/LowCmd.h`.  The vector of motor commands starts empty and
the session starts with zero weight. -/
def LowCmd.init : LowCmd :=
  { cmd_type := CmdType.SERIAL, motor_cmd := [], weight := 0 }

/-- Modelled from the spec: the enumeration `booster::robot::b1::JointIndex`
(the joint identifier of the spec), declared in
`booster/robot/b1/b1_api_const.hpp`, which is not among the sources; the
enumerators are the 23 that the program names in `low_joints`. -/
inductive JointIndex where
  | kHeadYaw | kHeadPitch
  | kLeftShoulderPitch | kLeftShoulderRoll | kLeftElbowPitch | kLeftElbowYaw
  | kRightShoulderPitch | kRightShoulderRoll | kRightElbowPitch | kRightElbowYaw
  | kWaist
  | kLeftHipPitch | kLeftHipRoll | kLeftHipYaw
  | kLeftKneePitch | kCrankUpLeft | kCrankDownLeft
  | kRightHipPitch | kRightHipRoll | kRightHipYaw
  | kRightKneePitch | kCrankUpRight | kCrankDownRight
  deriving DecidableEq

/-- Modelled from the spec: the number of joint slots
`booster::robot::b1::kJointCnt`, declared in
`booster/robot/b1/b1_api_const.hpp`.  The spec gives one entry per physical
joint slot, with fixed cardinality 23. -/
def kJointCnt : ℕ := 23

/-- Modelled from the spec: the conversion `int(joint)` of a `JointIndex`.
The values of the enumerators are declared in
`booster/robot/b1/b1_api_const.hpp`.  The spec has the frame indexed by the
joint enum, one slot per joint; the slots are numbered here in the order
head, left arm, right arm, waist, left leg, right leg. -/
def JointIndex.toNat : JointIndex → ℕ
  | kHeadYaw => 0 | kHeadPitch => 1
  | kLeftShoulderPitch => 2 | kLeftShoulderRoll => 3
  | kLeftElbowPitch => 4 | kLeftElbowYaw => 5
  | kRightShoulderPitch => 6 | kRightShoulderRoll => 7
  | kRightElbowPitch => 8 | kRightElbowYaw => 9
  | kWaist => 10
  | kLeftHipPitch => 11 | kLeftHipRoll => 12 | kLeftHipYaw => 13
  | kLeftKneePitch => 14 | kCrankUpLeft => 15 | kCrankDownLeft => 16
  | kRightHipPitch => 17 | kRightHipRoll => 18 | kRightHipYaw => 19
  | kRightKneePitch => 20 | kCrankUpRight => 21 | kCrankDownRight => 22

/-- The table `std::array<JointIndex, 23> low_joints`. -/
def low_joints : Fin 23 → JointIndex :=
  ![JointIndex.kHeadYaw, JointIndex.kHeadPitch,
    JointIndex.kLeftShoulderPitch, JointIndex.kLeftShoulderRoll,
    JointIndex.kLeftElbowPitch, JointIndex.kLeftElbowYaw,
    JointIndex.kRightShoulderPitch, JointIndex.kRightShoulderRoll,
    JointIndex.kRightElbowPitch, JointIndex.kRightElbowYaw,
    JointIndex.kWaist,
    JointIndex.kLeftHipPitch, JointIndex.kLeftHipRoll, JointIndex.kLeftHipYaw,
    JointIndex.kLeftKneePitch, JointIndex.kCrankUpLeft, JointIndex.kCrankDownLeft,
    JointIndex.kRightHipPitch, JointIndex.kRightHipRoll, JointIndex.kRightHipYaw,
    JointIndex.kRightKneePitch, JointIndex.kCrankUpRight, JointIndex.kCrankDownRight]

/-! ## The program state and the two loops -/

/-- The variables of `main` that the loops read and write, and the
sequence of frames handed to `low_sdk_publisher->Write`, oldest first. -/
structure State where
  msg : LowCmd
  current_jpos_des : Fin 23 → ℚ
  weight : ℚ
  written : List LowCmd

/-- A call `msg.motor_cmd().at(i).setter(value)`: `std::vector::at` throws
`std::out_of_range` when `i` is not below the size; `none` stands for the
exception (which `main` does not catch). -/
def atModify (cmds : List MotorCmd) (i : ℕ) (f : MotorCmd → MotorCmd) :
    Option (List MotorCmd) :=
  match cmds[i]? with
  | some m => some (cmds.set i (f m))
  | none => none

/-- The five setter calls of "set control joints" for one joint. -/
def setControlJoint (cmds : List MotorCmd) (slot : ℕ) (q dq kp kd tau : ℚ) :
    Option (List MotorCmd) :=
  (atModify cmds slot (fun m => { m with q := q })).bind fun c₁ =>
  (atModify c₁ slot (fun m => { m with dq := dq })).bind fun c₂ =>
  (atModify c₂ slot (fun m => { m with kp := kp })).bind fun c₃ =>
  (atModify c₃ slot (fun m => { m with kd := kd })).bind fun c₄ =>
  atModify c₄ slot (fun m => { m with tau := tau })

/-- The joints `j` in `l`, in order, of the loop "set control joints". -/
def setControlJointsFrom (l : List (Fin 23)) (cmds : List MotorCmd)
    (current_jpos_des kps kds : Fin 23 → ℚ) (dq tau_ff : ℚ) : Option (List MotorCmd) :=
  match l with
  | [] => some cmds
  | j :: t =>
    (setControlJoint cmds (low_joints j).toNat (current_jpos_des j) dq (kps j) (kds j)
      tau_ff).bind fun c => setControlJointsFrom t c current_jpos_des kps kds dq tau_ff

/-- The loop `for (int j = 0; j < init_pos.size(); ++j)` of "set control
joints". -/
def setControlJoints (cmds : List MotorCmd) (current_jpos_des kps kds : Fin 23 → ℚ)
    (dq tau_ff : ℚ) : Option (List MotorCmd) :=
  setControlJointsFrom (List.finRange 23) cmds current_jpos_des kps kds dq tau_ff

/-- One cycle of the lift loop: update jpos des, set control joints, send
the message.  (The sleep has no effect on the state.) -/
def liftCycle (target_pos kps kds : Fin 23 → ℚ) (dq tau_ff max_joint_delta : ℚ)
    (s : State) : Option State :=
  let cur := updateJposDes s.current_jpos_des target_pos max_joint_delta
  (setControlJoints s.msg.motor_cmd cur kps kds dq tau_ff).bind fun cmds =>
    let msg : LowCmd := { s.msg with motor_cmd := cmds }
    some { s with msg := msg, current_jpos_des := cur, written := s.written ++ [msg] }

/-- The state after `n` cycles of the lift loop
`for (int i = 0; i < num_time_steps; ++i)`. -/
def liftLoop (target_pos kps kds : Fin 23 → ℚ) (dq tau_ff max_joint_delta : ℚ)
    (n : ℕ) (s : State) : Option State :=
  match n with
  | 0 => some s
  | k + 1 => (liftLoop target_pos kps kds dq tau_ff max_joint_delta k s).bind
      (liftCycle target_pos kps kds dq tau_ff max_joint_delta)

/-- One cycle of the stop loop: `weight -= weight_margin;
weight = std::clamp(weight, 0.f, 1.f);` and then the message is sent as it
is.  The subtraction is exact here; `F32.weightAfter` has the weight with
the rounding of `float`. -/
def stopCycle (weight_margin : ℚ) (s : State) : State :=
  let weight := s.weight - weight_margin
  let weight := clamp weight 0 1
  { s with weight := weight, written := s.written ++ [s.msg] }

/-- The state after `n` cycles of the stop loop
`for (int i = 0; i < stop_time_steps; ++i)`. -/
def stopLoop (weight_margin : ℚ) (n : ℕ) (s : State) : State :=
  match n with
  | 0 => s
  | k + 1 => stopCycle weight_margin (stopLoop weight_margin k s)

/-- The message when the lift loop is entered: default-constructed, then
`msg.cmd_type(CmdType::PARALLEL)`, then `kJointCnt` default-constructed
motor commands pushed back one by one. -/
def initMsg : LowCmd :=
  let msg : LowCmd := { LowCmd.init with cmd_type := CmdType.PARALLEL }
  { msg with motor_cmd :=
      (List.range kJointCnt).foldl (fun v _ => v ++ [MotorCmd.init]) msg.motor_cmd }

/-- The state when the lift loop is entered, for a start pose
(`current_jpos_des`) and a starting value of `weight`. -/
def initState (current_jpos_des : Fin 23 → ℚ) (weight : ℚ) : State :=
  { msg := initMsg, current_jpos_des := current_jpos_des, weight := weight, written := [] }

/-- The frames that the stop loop hands to the publisher in `n` cycles
started in state `s`: what it appends to `written`. -/
def stopFrames (weight_margin : ℚ) (n : ℕ) (s : State) : List LowCmd :=
  (stopLoop weight_margin n s).written.drop s.written.length

/-! ## The constants of `main`

The constants and tables as the decimals that the source writes; their
`float` values are under `F32`. -/

def weight : ℚ := 0
def weight_rate : ℚ := 0.2
def dq : ℚ := 0
def tau_ff : ℚ := 0
def control_dt : ℚ := 0.02
def max_joint_velocity : ℚ := 0.5
def weight_margin : ℚ := weight_rate * control_dt
def max_joint_delta : ℚ := max_joint_velocity * control_dt

/-- The table `std::array<float, 23> target_pos`. -/
def target_pos : Fin 23 → ℚ :=
  ![0.00, 0.00,
    0.10, -1.50, 0.00, -0.20,
    0.10, 1.50, 0.00, 0.20,
    0.0,
    -0.2, 0, 0, 0.4, 0.2, 0.14,
    -0.2, 0, 0, 0.4, 0.2, 0.14]

/-- The table `std::array<float, 23> kps`. -/
def kps : Fin 23 → ℚ :=
  ![5, 5,
    40, 50, 20, 10,
    40, 50, 20, 10,
    100,
    350, 350, 180, 350, 550, 550,
    350, 350, 180, 350, 550, 550]

/-- The table `std::array<float, 23> kds`. -/
def kds : Fin 23 → ℚ :=
  ![0.1, 0.1,
    0.5, 1.5, 0.2, 0.2,
    0.5, 1.5, 0.2, 0.2,
    5.0,
    7.5, 7.5, 3, 5.5, 1.5, 1.5,
    7.5, 7.5, 3, 5.5, 1.5, 1.5]

/-- The table `std::array<float, 23> current_jpos_des` as initialised
before the lift loop (the start pose). -/
def current_jpos_des : Fin 23 → ℚ :=
  ![0.00, 0.00,
    0.10, -1.50, 0.00, -0.20,
    0.10, 1.50, 0.00, 0.20,
    0.0,
    -0.2, 0, 0, 0.4, -0.35, 0.03,
    -0.2, 0, 0, 0.4, -0.35, -0.03]

/-- The conversion `static_cast<int>(x)` of a `float`: truncation toward
zero. -/
def toInt (x : ℚ) : ℤ :=
  if 0 ≤ x then ⌊x⌋ else ⌈x⌉

def period : ℚ := 50000
def num_time_steps : ℤ := toInt (period / control_dt)
def stop_time : ℚ := 2.0
def stop_time_steps : ℤ := toInt (stop_time / control_dt)

/-- How a run of `main` ends: the exit status and the frames handed to the
publisher, oldest first. -/
structure Outcome where
  status : ℤ
  written : List LowCmd

/-- The function `main`, as far as the command frames and the exit status
go: `exit(-1)` when `argc < 2`; otherwise the lift loop, then the stop loop,
then `return 0`.  A loop `for (int i = 0; i < n; ++i)` runs `n.toNat` cycles.
`none` stands for an exception thrown by `std::vector::at`. -/
def main (argc : ℤ) : Option Outcome :=
  if argc < 2 then
    some { status := -1, written := [] }
  else
    (liftLoop target_pos kps kds dq tau_ff max_joint_delta num_time_steps.toNat
      (initState current_jpos_des weight)).bind fun s =>
        some { status := 0,
               written := (stopLoop weight_margin stop_time_steps.toNat s).written }

/-! ## Single precision -/

/-- Rounding of a rational number to the nearest integer, ties to the even
one. -/
def roundHalfEven (x : ℚ) : ℤ :=
  if x - ⌊x⌋ < 1 / 2 then ⌊x⌋
  else if 1 / 2 < x - ⌊x⌋ then ⌊x⌋ + 1
  else if ⌊x⌋ % 2 = 0 then ⌊x⌋
  else ⌊x⌋ + 1

/-- The value of type `float` (IEEE 754 binary32: 24 significant bits,
rounding to nearest, ties to even) nearest to `x`.  It is what a literal
such as `0.02f` denotes for the decimal `x` written, and what an operation
on `float` operands returns for its exact result `x`.  For `x ≠ 0` the
spacing of the `float` values around `x` is `2 ^ (e - 23)` where
`2 ^ e ≤ |x| < 2 ^ (e + 1)`.  The limits of the exponent range (overflow,
subnormal numbers) are left out. -/
def f32 (x : ℚ) : ℚ :=
  if x = 0 then 0
  else roundHalfEven (x / 2 ^ (Int.log 2 |x| - 23)) * 2 ^ (Int.log 2 |x| - 23)

/-- The number of milliseconds in `sleep_time =
std::chrono::milliseconds(static_cast<int>(control_dt / 0.001f))`, with the
two `float` values and the `float` division in single precision. -/
def sleep_time : ℤ :=
  toInt (f32 (f32 control_dt / f32 0.001))

/-- The value of type `double` (IEEE 754 binary64: 53 significant bits,
rounding to nearest, ties to even) nearest to `x`: what a literal such as
`0.2` denotes.  Same scheme as `f32`, with spacing `2 ^ (e - 52)`. -/
def f64 (x : ℚ) : ℚ :=
  if x = 0 then 0
  else roundHalfEven (x / 2 ^ (Int.log 2 |x| - 52)) * 2 ^ (Int.log 2 |x| - 52)

/-! ## The ramp and the weight in single precision

The definitions of this section follow the same source lines as `step`,
`updateJposDes`, `jposAfter` and the weight update of `stopCycle`, with every
`float` operation rounded by `f32`, the `float` literals (`0.5f`, `0.02f`,
`0.2f`) read through `f32`, and the table entries, which the source writes as
`double` literals and stores in `std::array<float, 23>`, read through `f64`
and then `f32`. -/

/-- The variable `float max_joint_velocity = 0.5f`. -/
def F32.max_joint_velocity : ℚ := f32 B1LowSdk.max_joint_velocity

/-- The variable `float control_dt = 0.02f`. -/
def F32.control_dt : ℚ := f32 B1LowSdk.control_dt

/-- The variable `float weight_rate = 0.2f`. -/
def F32.weight_rate : ℚ := f32 B1LowSdk.weight_rate

/-- The variable `float weight_margin = weight_rate * control_dt`. -/
def F32.weight_margin : ℚ := f32 (F32.weight_rate * F32.control_dt)

/-- The variable `float max_joint_delta = max_joint_velocity * control_dt`. -/
def F32.max_joint_delta : ℚ := f32 (F32.max_joint_velocity * F32.control_dt)

/-- The table `std::array<float, 23> target_pos` as stored. -/
def F32.target_pos : Fin 23 → ℚ :=
  fun j => f32 (f64 (B1LowSdk.target_pos j))

/-- The table `std::array<float, 23> current_jpos_des` as stored before the
lift loop. -/
def F32.current_jpos_des : Fin 23 → ℚ :=
  fun j => f32 (f64 (B1LowSdk.current_jpos_des j))

/-- The variable `int stop_time_steps = static_cast<int>(stop_time /
control_dt)` with `stop_time = 2.0f`. -/
def F32.stop_time_steps : ℤ :=
  toInt (f32 (f32 stop_time / F32.control_dt))

/-- One execution of `current_jpos_des.at(j) +=
std::clamp(target_pos.at(j) - current_jpos_des.at(j), -max_joint_delta,
max_joint_delta)` in `float`: the subtraction is rounded, `std::clamp` returns
one of its arguments, the addition is rounded. -/
def F32.step (cur target maxDelta : ℚ) : ℚ :=
  f32 (cur + clamp (f32 (target - cur)) (-maxDelta) maxDelta)

/-- The loop "update jpos des" in `float`: the joints in order, in place. -/
def F32.updateJposDes (current_jpos_des target_pos : Fin 23 → ℚ) (max_joint_delta : ℚ) :
    Fin 23 → ℚ :=
  (List.finRange 23).foldl
    (fun cur j => Function.update cur j
      (f32 (cur j + clamp (f32 (target_pos j - cur j)) (-max_joint_delta) max_joint_delta)))
    current_jpos_des

/-- The commanded positions after `n` cycles of the lift loop, in `float`. -/
def F32.jposAfter (n : ℕ) (current_jpos_des target_pos : Fin 23 → ℚ) (max_joint_delta : ℚ) :
    Fin 23 → ℚ :=
  match n with
  | 0 => current_jpos_des
  | k + 1 => F32.updateJposDes (F32.jposAfter k current_jpos_des target_pos max_joint_delta)
      target_pos max_joint_delta

/-- The value of `weight` after `n` cycles of the stop loop, in `float`:
each cycle `weight -= weight_margin` (rounded) and then
`weight = std::clamp(weight, 0.f, 1.f)`. -/
def F32.weightAfter (weight_margin : ℚ) (n : ℕ) (weight : ℚ) : ℚ :=
  match n with
  | 0 => weight
  | k + 1 => clamp (f32 (F32.weightAfter weight_margin k weight - weight_margin)) 0 1

end B1LowSdk

namespace B1LowSdk

/-! ## Facts about `clamp` and `step` -/

theorem clamp_of_le {v lo hi : ℚ} (h₁ : lo ≤ v) (h₂ : v ≤ hi) : clamp v lo hi = v := by
  unfold clamp
  rw [if_neg (not_lt.mpr h₁), if_neg (not_lt.mpr h₂)]

theorem clamp_of_lt_lo {v lo hi : ℚ} (h : v < lo) : clamp v lo hi = lo := by
  unfold clamp
  rw [if_pos h]

theorem clamp_of_hi_lt {v lo hi : ℚ} (h₁ : lo ≤ v) (h₂ : hi < v) : clamp v lo hi = hi := by
  unfold clamp
  rw [if_neg (not_lt.mpr h₁), if_pos h₂]

theorem clamp_mem (v : ℚ) {lo hi : ℚ} (h : lo ≤ hi) : lo ≤ clamp v lo hi ∧ clamp v lo hi ≤ hi := by
  unfold clamp
  split_ifs with h₁ h₂
  · exact ⟨le_refl _, h⟩
  · exact ⟨h, le_refl _⟩
  · exact ⟨not_lt.mp h₁, not_lt.mp h₂⟩

theorem abs_clamp_le {v d : ℚ} (hd : 0 ≤ d) : |clamp v (-d) d| ≤ d := by
  have h : -d ≤ clamp v (-d) d ∧ clamp v (-d) d ≤ d := clamp_mem v (by linarith)
  exact abs_le.mpr h

/-- The in-place loop over the joints computes `step` joint by joint. -/
theorem foldl_update_apply {n : ℕ} (f : Fin n → ℚ → ℚ) (l : List (Fin n)) (hl : l.Nodup)
    (cur : Fin n → ℚ) (j : Fin n) :
    (l.foldl (fun c i => Function.update c i (f i (c i))) cur) j
      = if j ∈ l then f j (cur j) else cur j := by
  induction l generalizing cur with
  | nil => simp
  | cons a t ih =>
    have hnd := List.nodup_cons.mp hl
    rw [List.foldl_cons, ih hnd.2]
    by_cases hj : j = a
    · subst hj
      simp [hnd.1]
    · by_cases hjt : j ∈ t
      · simp [hjt, hj, Function.update_noteq hj]
      · simp [hjt, hj, Function.update_noteq hj]

theorem updateJposDes_apply (cur target : Fin 23 → ℚ) (d : ℚ) (j : Fin 23) :
    updateJposDes cur target d j = step (cur j) (target j) d := by
  unfold updateJposDes
  have h := foldl_update_apply
    (fun i c => c + clamp (target i - c) (-d) d) (List.finRange 23)
    (List.nodup_finRange 23) cur j
  simp only [List.mem_finRange, if_true] at h
  rw [h]
  rfl

end B1LowSdk

namespace B1LowSdk

theorem step_of_abs_le {c t d : ℚ} (h : |t - c| ≤ d) : step c t d = t := by
  have h' := abs_le.mp h
  unfold step
  rw [clamp_of_le h'.1 h'.2]
  ring

theorem jposAfter_apply (n : ℕ) (cur target : Fin 23 → ℚ) (d : ℚ) (j : Fin 23) :
    jposAfter n cur target d j = (fun x => step x (target j) d)^[n] (cur j) := by
  induction n with
  | zero => rfl
  | succ k ih =>
    rw [Function.iterate_succ_apply', ← ih]
    show updateJposDes _ _ _ j = _
    rw [updateJposDes_apply]

end B1LowSdk

namespace B1LowSdk

/-! ## The lift loop never throws and keeps the shape of the message -/

theorem atModify_some {cmds : List MotorCmd} {i : ℕ} (f : MotorCmd → MotorCmd)
    (h : i < cmds.length) :
    ∃ c, atModify cmds i f = some c ∧ c.length = cmds.length := by
  unfold atModify
  rw [List.getElem?_eq_getElem h]
  exact ⟨_, rfl, List.length_set _ _ _⟩

theorem setControlJoint_some {cmds : List MotorCmd} {slot : ℕ} (q dq kp kd tau : ℚ)
    (h : slot < cmds.length) :
    ∃ c, setControlJoint cmds slot q dq kp kd tau = some c ∧ c.length = cmds.length := by
  unfold setControlJoint
  obtain ⟨c₁, e₁, l₁⟩ := atModify_some (fun m => { m with q := q }) h
  obtain ⟨c₂, e₂, l₂⟩ := atModify_some (fun m => { m with dq := dq }) (l₁ ▸ h)
  obtain ⟨c₃, e₃, l₃⟩ := atModify_some (fun m => { m with kp := kp }) (l₂ ▸ l₁ ▸ h)
  obtain ⟨c₄, e₄, l₄⟩ := atModify_some (fun m => { m with kd := kd }) (l₃ ▸ l₂ ▸ l₁ ▸ h)
  obtain ⟨c₅, e₅, l₅⟩ := atModify_some (fun m => { m with tau := tau })
    (l₄ ▸ l₃ ▸ l₂ ▸ l₁ ▸ h)
  rw [e₁, Option.some_bind, e₂, Option.some_bind, e₃, Option.some_bind, e₄, Option.some_bind, e₅]
  exact ⟨c₅, rfl, by rw [l₅, l₄, l₃, l₂, l₁]⟩

theorem low_joints_lt (j : Fin 23) : (low_joints j).toNat < kJointCnt := by
  revert j
  decide

theorem setControlJointsFrom_some (l : List (Fin 23)) (cmds : List MotorCmd)
    (cur kps kds : Fin 23 → ℚ) (dq tau_ff : ℚ) (h : cmds.length = kJointCnt) :
    ∃ c, setControlJointsFrom l cmds cur kps kds dq tau_ff = some c
      ∧ c.length = kJointCnt := by
  induction l generalizing cmds with
  | nil => exact ⟨cmds, rfl, h⟩
  | cons j t ih =>
    obtain ⟨c₁, e₁, l₁⟩ := setControlJoint_some (cur j) dq (kps j) (kds j) tau_ff
      (show (low_joints j).toNat < cmds.length from h ▸ low_joints_lt j)
    obtain ⟨c₂, e₂, l₂⟩ := ih c₁ (l₁.trans h)
    refine ⟨c₂, ?_, l₂⟩
    unfold setControlJointsFrom
    rw [e₁, Option.some_bind, e₂]

/-- The state properties that every cycle of the lift loop keeps or
establishes. -/
theorem liftCycle_some (target kps kds : Fin 23 → ℚ) (dq tau_ff d : ℚ) (s : State)
    (h : s.msg.motor_cmd.length = kJointCnt) :
    ∃ s', liftCycle target kps kds dq tau_ff d s = some s'
      ∧ s'.msg.motor_cmd.length = kJointCnt
      ∧ s'.current_jpos_des = updateJposDes s.current_jpos_des target d
      ∧ s'.weight = s.weight
      ∧ s'.written = s.written ++ [s'.msg]
      ∧ s'.msg.cmd_type = s.msg.cmd_type
      ∧ s'.msg.weight = s.msg.weight := by
  obtain ⟨c, e, l⟩ := setControlJointsFrom_some (List.finRange 23) s.msg.motor_cmd
    (updateJposDes s.current_jpos_des target d) kps kds dq tau_ff h
  refine ⟨{ s with
      msg := { s.msg with motor_cmd := c }
      current_jpos_des := updateJposDes s.current_jpos_des target d
      written := s.written ++ [{ s.msg with motor_cmd := c }] }, ?_, l, rfl, rfl, rfl, rfl, rfl⟩
  unfold liftCycle setControlJoints
  simp only [e, Option.some_bind]

theorem initMsg_length : initMsg.motor_cmd.length = kJointCnt := by
  decide

theorem liftLoop_succ (target kps kds : Fin 23 → ℚ) (dq tau_ff d : ℚ) (n : ℕ) (s : State) :
    liftLoop target kps kds dq tau_ff d (n + 1) s
      = (liftLoop target kps kds dq tau_ff d n s).bind (liftCycle target kps kds dq tau_ff d) :=
  rfl

/-- The lift loop, started with a message of `kJointCnt` motor commands,
completes any number of cycles. -/
theorem liftLoop_some (target kps kds : Fin 23 → ℚ) (dq tau_ff d : ℚ) (n : ℕ) (s : State)
    (h : s.msg.motor_cmd.length = kJointCnt) :
    ∃ s', liftLoop target kps kds dq tau_ff d n s = some s'
      ∧ s'.msg.motor_cmd.length = kJointCnt
      ∧ s'.current_jpos_des = jposAfter n s.current_jpos_des target d
      ∧ s'.weight = s.weight
      ∧ s'.msg.cmd_type = s.msg.cmd_type
      ∧ s'.msg.weight = s.msg.weight := by
  induction n with
  | zero => exact ⟨s, rfl, h, rfl, rfl, rfl, rfl⟩
  | succ k ih =>
    obtain ⟨a, ea, la, ca, wa, ta, fa⟩ := ih
    obtain ⟨b, eb, lb, cb, wb, _, tb, fb⟩ := liftCycle_some target kps kds dq tau_ff d a la
    refine ⟨b, ?_, lb, ?_, wb.trans wa, tb.trans ta, fb.trans fa⟩
    · rw [liftLoop_succ, ea, Option.some_bind, eb]
    · rw [cb, ca]
      rfl

end B1LowSdk

namespace B1LowSdk

theorem max_joint_delta_nonneg : 0 ≤ max_joint_velocity * control_dt := by
  norm_num [max_joint_velocity, control_dt]

/-! ## Idempotence at the target, and the value that a step returns -/

/-- C4. Idempotence at target: for `maxDelta ≥ 0`, a limiter step taken at
the target returns the target, so does any number of further steps, and a
joint whose commanded position equals its target when the lift loop is
entered still has it after any number of cycles. -/
theorem step_idempotent_at_target (target d : ℚ) (hd : 0 ≤ d)
    (cur0 tgt gp gd : Fin 23 → ℚ) (vel tau w0 : ℚ) (j : Fin 23) (hj : cur0 j = tgt j) (n : ℕ) :
    step target target d = target
      ∧ (fun x => step x target d)^[n] target = target
      ∧ ∃ s, liftLoop tgt gp gd vel tau d n (initState cur0 w0) = some s
          ∧ s.current_jpos_des j = cur0 j := by
  have h₁ : ∀ t : ℚ, step t t d = t := fun t =>
    step_of_abs_le (by rw [sub_self, abs_zero]; exact hd)
  have h₂ : ∀ t : ℚ, (fun x => step x t d)^[n] t = t := fun t =>
    Function.iterate_fixed (f := fun x => step x t d) (h₁ t) n
  refine ⟨h₁ target, h₂ target, ?_⟩
  obtain ⟨s, es, _, cs, _⟩ := liftLoop_some tgt gp gd vel tau d n (initState cur0 w0)
    initMsg_length
  refine ⟨s, es, ?_⟩
  rw [cs]
  show jposAfter n cur0 tgt d j = cur0 j
  rw [jposAfter_apply, hj]
  exact h₂ (tgt j)

/-- C4, at the program's tables: the right shoulder roll joint (table
position 7) starts at its target 1.5. -/
theorem step_idempotent_at_target_witness :
    step 1.5 1.5 (max_joint_velocity * control_dt) = 1.5
      ∧ (fun x => step x 1.5 (max_joint_velocity * control_dt))^[100] 1.5 = 1.5
      ∧ ∃ s, liftLoop target_pos kps kds dq tau_ff (max_joint_velocity * control_dt) 100
            (initState current_jpos_des weight) = some s
          ∧ s.current_jpos_des 7 = current_jpos_des 7 :=
  step_idempotent_at_target 1.5 (max_joint_velocity * control_dt) max_joint_delta_nonneg
    current_jpos_des target_pos kps kds dq tau_ff weight 7
    ((show current_jpos_des 7 = 1.50 from rfl).trans (show target_pos 7 = 1.50 from rfl).symm) 100

/-- C5, as stated, fails: the value that the limiter returns is the new
position, not the displacement; a joint that rests at its target 1.5 with
bound 0.01 is returned at 1.5, whose magnitude exceeds the bound. -/
theorem step_abs_not_bounded :
    (0 : ℚ) ≤ 0.01 ∧ step 1.5 1.5 0.01 = 1.5 ∧ ¬ |step 1.5 1.5 0.01| ≤ 0.01 := by
  have h : step 1.5 1.5 0.01 = 1.5 := step_of_abs_le (by norm_num)
  refine ⟨by norm_num, h, ?_⟩
  rw [h]
  norm_num [abs_of_pos]

end B1LowSdk

namespace B1LowSdk

/-! ## The frames handed to the publisher -/

/-- What the lift loop has written after `n` cycles: every frame has
`kJointCnt` motor commands, there is one frame per cycle, and the last one
is the message as the loop leaves it. -/
theorem liftLoop_written (target gp gd : Fin 23 → ℚ) (vel tau d : ℚ) (n : ℕ) (s : State)
    (h : s.msg.motor_cmd.length = kJointCnt)
    (hw : ∀ f ∈ s.written, f.motor_cmd.length = kJointCnt) :
    ∃ s', liftLoop target gp gd vel tau d n s = some s'
      ∧ s'.msg.motor_cmd.length = kJointCnt
      ∧ (∀ f ∈ s'.written, f.motor_cmd.length = kJointCnt)
      ∧ s'.written.length = s.written.length + n
      ∧ (0 < n → s'.written.getLast? = some s'.msg) := by
  induction n with
  | zero => exact ⟨s, rfl, h, hw, rfl, fun h0 => absurd h0 (lt_irrefl 0)⟩
  | succ k ih =>
    obtain ⟨a, ea, la, wa, na, _⟩ := ih
    obtain ⟨b, eb, lb, _, _, wb, _⟩ := liftCycle_some target gp gd vel tau d a la
    refine ⟨b, ?_, lb, ?_, ?_, fun _ => ?_⟩
    · rw [liftLoop_succ, ea, Option.some_bind, eb]
    · intro f hf
      rw [wb, List.mem_append, List.mem_singleton] at hf
      rcases hf with hf | hf
      · exact wa f hf
      · rw [hf]
        exact lb
    · rw [wb, List.length_append, na, List.length_singleton, Nat.add_assoc]
    · rw [wb, List.getLast?_append]
      rfl

/-- The stop loop leaves the message alone and appends it to the written
frames once per cycle. -/
theorem stopLoop_written (margin : ℚ) (n : ℕ) (s : State) :
    (stopLoop margin n s).msg = s.msg
      ∧ (stopLoop margin n s).current_jpos_des = s.current_jpos_des
      ∧ (stopLoop margin n s).written = s.written ++ List.replicate n s.msg := by
  induction n with
  | zero => exact ⟨rfl, rfl, by simp [stopLoop]⟩
  | succ k ih =>
    obtain ⟨hm, hc, hw⟩ := ih
    refine ⟨hm, hc, ?_⟩
    show (stopLoop margin k s).written ++ [(stopLoop margin k s).msg] = _
    rw [hw, hm, List.replicate_succ', List.append_assoc]

theorem stopFrames_eq (margin : ℚ) (n : ℕ) (s : State) :
    stopFrames margin n s = List.replicate n s.msg := by
  unfold stopFrames
  rw [(stopLoop_written margin n s).2.2, List.drop_left]

theorem stopLoop_weight_succ (margin : ℚ) (n : ℕ) (s : State) :
    (stopLoop margin (n + 1) s).weight = clamp ((stopLoop margin n s).weight - margin) 0 1 :=
  rfl

theorem low_joints_toNat_injective :
    ∀ a b : Fin 23, (low_joints a).toNat = (low_joints b).toNat → a = b := by
  decide

theorem low_joints_toNat_surjective :
    ∀ slot : Fin 23, ∃ j : Fin 23, (low_joints j).toNat = slot.val := by
  decide

end B1LowSdk

namespace B1LowSdk

/-! ## The shutdown loop -/

/-- C8. Weight ramp monotonicity: for every starting weight in `[0, 1]` and
every `weight_margin ≥ 0`, each cycle of the stop loop sets the weight to
`clamp(weight - weight_margin, 0, 1)`, which is at most the weight before
the cycle and lies in `[0, 1]`. -/
theorem weight_ramp_monotone (margin : ℚ) (hm : 0 ≤ margin) (s : State)
    (h0 : 0 ≤ s.weight) (h1 : s.weight ≤ 1) (k : ℕ) :
    (stopLoop margin (k + 1) s).weight = clamp ((stopLoop margin k s).weight - margin) 0 1
      ∧ (stopLoop margin (k + 1) s).weight ≤ (stopLoop margin k s).weight
      ∧ 0 ≤ (stopLoop margin (k + 1) s).weight
      ∧ (stopLoop margin (k + 1) s).weight ≤ 1 := by
  have hrange : ∀ i : ℕ, 0 ≤ (stopLoop margin i s).weight ∧ (stopLoop margin i s).weight ≤ 1 := by
    intro i
    cases i with
    | zero => exact ⟨h0, h1⟩
    | succ i =>
      rw [stopLoop_weight_succ]
      exact clamp_mem _ zero_le_one
  refine ⟨rfl, ?_, (hrange (k + 1)).1, (hrange (k + 1)).2⟩
  rw [stopLoop_weight_succ]
  unfold clamp
  split_ifs with ha hb
  · exact (hrange k).1
  · linarith
  · linarith

/-- C8, at the program's constants: stop loop entered with the program's
start pose and weight, first cycle. -/
theorem weight_ramp_monotone_witness :
    (stopLoop weight_margin (0 + 1) (initState current_jpos_des weight)).weight
        = clamp ((stopLoop weight_margin 0 (initState current_jpos_des weight)).weight
            - weight_margin) 0 1
      ∧ (stopLoop weight_margin (0 + 1) (initState current_jpos_des weight)).weight
          ≤ (stopLoop weight_margin 0 (initState current_jpos_des weight)).weight
      ∧ 0 ≤ (stopLoop weight_margin (0 + 1) (initState current_jpos_des weight)).weight
      ∧ (stopLoop weight_margin (0 + 1) (initState current_jpos_des weight)).weight ≤ 1 :=
  weight_ramp_monotone weight_margin (by norm_num [weight_margin, weight_rate, control_dt])
    (initState current_jpos_des weight) (by norm_num [initState, weight])
    (by norm_num [initState, weight]) 0

/-- C10. Shutdown leaves the joint commands unchanged: after `n ≥ 1` lift
cycles, the stop loop writes `m` frames, and each of them has the
command-mode tag and the whole vector of motor commands (position, velocity,
kp, kd and torque of every slot) of the last frame written by the lift
loop. -/
theorem stop_frames_keep_joint_commands (cur0 target gp gd : Fin 23 → ℚ)
    (vel tau d w0 margin : ℚ) (n m : ℕ) (hn : 0 < n) :
    ∃ s last, liftLoop target gp gd vel tau d n (initState cur0 w0) = some s
      ∧ s.written.getLast? = some last
      ∧ (stopFrames margin m s).length = m
      ∧ ∀ f ∈ stopFrames margin m s,
          f.cmd_type = last.cmd_type ∧ f.motor_cmd = last.motor_cmd := by
  obtain ⟨s, es, _, _, _, hlast⟩ := liftLoop_written target gp gd vel tau d n
    (initState cur0 w0) initMsg_length (fun f hf => absurd hf (List.not_mem_nil f))
  refine ⟨s, s.msg, es, hlast hn, ?_, fun f hf => ?_⟩
  · rw [stopFrames_eq, List.length_replicate]
  · rw [stopFrames_eq] at hf
    rw [List.eq_of_mem_replicate hf]
    exact ⟨rfl, rfl⟩

/-- C10, at the program's tables and constants: 2500000 lift cycles and 100
stop cycles. -/
theorem stop_frames_keep_joint_commands_witness :
    ∃ s last, liftLoop target_pos kps kds dq tau_ff max_joint_delta 2500000
          (initState current_jpos_des weight) = some s
      ∧ s.written.getLast? = some last
      ∧ (stopFrames weight_margin 100 s).length = 100
      ∧ ∀ f ∈ stopFrames weight_margin 100 s,
          f.cmd_type = last.cmd_type ∧ f.motor_cmd = last.motor_cmd :=
  stop_frames_keep_joint_commands current_jpos_des target_pos kps kds dq tau_ff
    max_joint_delta weight weight_margin 2500000 100 (by norm_num)

end B1LowSdk

namespace B1LowSdk

/-! ## The exact weight ramp and the step counts -/

/-- The weight after `k` cycles of the stop loop, for a starting weight in
`[0, 1]` and a margin that is not negative. -/
theorem stopLoop_weight_eq (margin : ℚ) (hm : 0 ≤ margin) (s : State)
    (h0 : 0 ≤ s.weight) (h1 : s.weight ≤ 1) (k : ℕ) :
    (stopLoop margin k s).weight = max 0 (s.weight - margin * k) := by
  induction k with
  | zero =>
    show s.weight = _
    rw [Nat.cast_zero, mul_zero, sub_zero, max_eq_right h0]
  | succ k ih =>
    rw [stopLoop_weight_succ, ih]
    push_cast
    have hk : (0 : ℚ) ≤ margin * k := mul_nonneg hm (Nat.cast_nonneg k)
    rcases le_total (s.weight - margin * k) 0 with hle | hle
    · rw [max_eq_left hle, max_eq_left (by linarith)]
      rcases eq_or_lt_of_le hm with he | hlt
      · rw [← he, sub_zero]
        exact clamp_of_le le_rfl zero_le_one
      · exact clamp_of_lt_lo (by linarith)
    · rw [max_eq_right hle]
      rcases lt_or_le (s.weight - margin * k - margin) 0 with hlt | hge
      · rw [clamp_of_lt_lo hlt, max_eq_left (by linarith)]
      · rw [clamp_of_le hge (by linarith), max_eq_right (by linarith)]
        ring

theorem toInt_intCast (z : ℤ) : toInt (z : ℚ) = z := by
  unfold toInt
  split_ifs
  · exact Int.floor_intCast z
  · exact Int.ceil_intCast z

theorem num_time_steps_eq : num_time_steps = 2500000 := by
  have h : period / control_dt = ((2500000 : ℤ) : ℚ) := by
    norm_num [period, control_dt]
  unfold num_time_steps
  rw [h, toInt_intCast]

theorem stop_time_steps_eq : stop_time_steps = 100 := by
  have h : stop_time / control_dt = ((100 : ℤ) : ℚ) := by
    norm_num [stop_time, control_dt]
  unfold stop_time_steps
  rw [h, toInt_intCast]

theorem weight_margin_eq : weight_margin = 0.004 := by
  norm_num [weight_margin, weight_rate, control_dt]

end B1LowSdk

namespace B1LowSdk

/-! ## The session as a whole -/

/-- The frames of a session of `n` lift cycles and `m` stop cycles: the
lift loop completes and has written `n` frames, and the stop loop appends
its `m` frames after them. -/
theorem session_frames (target gp gd : Fin 23 → ℚ) (vel tau d : ℚ) (cur0 : Fin 23 → ℚ)
    (w0 margin : ℚ) (n m : ℕ) :
    ∃ s, liftLoop target gp gd vel tau d n (initState cur0 w0) = some s
      ∧ s.written.length = n
      ∧ s.weight = w0
      ∧ (stopLoop margin m s).written = s.written ++ stopFrames margin m s
      ∧ (stopFrames margin m s).length = m := by
  obtain ⟨s, es, _, _, ns, _⟩ := liftLoop_written target gp gd vel tau d n
    (initState cur0 w0) initMsg_length (fun f hf => absurd hf (List.not_mem_nil f))
  obtain ⟨s', es', _, _, ws, _⟩ := liftLoop_some target gp gd vel tau d n
    (initState cur0 w0) initMsg_length
  have hss : s' = s := Option.some.inj (es'.symm.trans es)
  refine ⟨s, es, ?_, hss ▸ ws, ?_, ?_⟩
  · rw [ns]
    exact Nat.zero_add n
  · rw [stopFrames_eq, (stopLoop_written margin m s).2.2]
  · rw [stopFrames_eq, List.length_replicate]

/-- C13. Exit codes: started with `argc < 2`, `main` ends through
`exit(-1)`, a status that is not zero (also as the low eight bits that the
parent process sees), and no frame has been written; started with
`argc ≥ 2`, both loops run to completion, 2500000 + 100 frames are written,
and `main` returns 0. -/
theorem exit_codes :
    (∀ argc : ℤ, argc < 2 → ∃ o, main argc = some o
        ∧ o.status ≠ 0 ∧ o.status % 256 ≠ 0 ∧ o.written = [])
      ∧ (∀ argc : ℤ, 2 ≤ argc → ∃ o, main argc = some o
        ∧ o.status = 0 ∧ o.written.length = 2500000 + 100) := by
  constructor
  · intro argc h
    refine ⟨{ status := -1, written := [] }, ?_, by decide, by decide, rfl⟩
    unfold main
    rw [if_pos h]
  · intro argc h
    obtain ⟨s, es, ns, _, hw, hm⟩ := session_frames target_pos kps kds dq tau_ff
      max_joint_delta current_jpos_des weight weight_margin num_time_steps.toNat
      stop_time_steps.toNat
    refine ⟨{ status := 0,
              written := (stopLoop weight_margin stop_time_steps.toNat s).written }, ?_, rfl, ?_⟩
    · unfold main
      rw [if_neg (not_lt.mpr h), es, Option.some_bind]
    · show (stopLoop weight_margin stop_time_steps.toNat s).written.length = _
      rw [hw, List.length_append, ns, hm, num_time_steps_eq, stop_time_steps_eq]
      rfl

/-- C15. Time-boxed, strictly linear session: for every start pose and
every target, the lift loop completes `num_time_steps = 2500000` cycles and
writes one frame in each of them (state `a` after `i` cycles has `i`
frames), whatever the distance of the joints from their targets; then the
stop loop writes `stop_time_steps = 100` frames, all of them after the
frames of the lift loop, one in each cycle; and `main`, started with its
argument, returns after exactly these frames. -/
theorem session_is_time_boxed (cur0 target gp gd : Fin 23 → ℚ) (vel tau d w0 margin : ℚ) :
    num_time_steps = toInt (period / control_dt) ∧ num_time_steps = 2500000
      ∧ stop_time_steps = toInt (stop_time / control_dt) ∧ stop_time_steps = 100
      ∧ (∃ s, liftLoop target gp gd vel tau d num_time_steps.toNat (initState cur0 w0) = some s
          ∧ s.written.length = num_time_steps.toNat
          ∧ (∀ i : ℕ, ∃ a, liftLoop target gp gd vel tau d i (initState cur0 w0) = some a
              ∧ a.written.length = i)
          ∧ (stopLoop margin stop_time_steps.toNat s).written
              = s.written ++ stopFrames margin stop_time_steps.toNat s
          ∧ (stopFrames margin stop_time_steps.toNat s).length = stop_time_steps.toNat
          ∧ (∀ k : ℕ, (stopLoop margin k s).written.length = num_time_steps.toNat + k))
      ∧ (∀ argc : ℤ, 2 ≤ argc → ∃ o, main argc = some o
          ∧ o.written.length = num_time_steps.toNat + stop_time_steps.toNat) := by
  refine ⟨rfl, num_time_steps_eq, rfl, stop_time_steps_eq, ?_, ?_⟩
  · obtain ⟨s, es, ns, _, hw, hm⟩ := session_frames target gp gd vel tau d cur0 w0 margin
      num_time_steps.toNat stop_time_steps.toNat
    refine ⟨s, es, ns, fun i => ?_, hw, hm, fun k => ?_⟩
    · obtain ⟨a, ea, na, _⟩ := session_frames target gp gd vel tau d cur0 w0 margin i 0
      exact ⟨a, ea, na⟩
    · rw [(stopLoop_written margin k s).2.2, List.length_append, ns, List.length_replicate]
  · intro argc h
    obtain ⟨s, es, ns, _, hw, hm⟩ := session_frames target_pos kps kds dq tau_ff
      max_joint_delta current_jpos_des weight weight_margin num_time_steps.toNat
      stop_time_steps.toNat
    refine ⟨{ status := 0,
              written := (stopLoop weight_margin stop_time_steps.toNat s).written }, ?_, ?_⟩
    · unfold main
      rw [if_neg (not_lt.mpr h), es, Option.some_bind]
    · show (stopLoop weight_margin stop_time_steps.toNat s).written.length = _
      rw [hw, List.length_append, ns, hm]

/-- C17. In the program as written the weight starts at 0: the stop loop is
entered with weight 0, and after every one of its cycles the weight is
exactly 0, its initial value. -/
theorem weight_stays_zero :
    weight = 0
      ∧ ∃ s, liftLoop target_pos kps kds dq tau_ff max_joint_delta num_time_steps.toNat
            (initState current_jpos_des weight) = some s
          ∧ s.weight = weight
          ∧ ∀ k : ℕ, (stopLoop weight_margin k s).weight = 0 := by
  obtain ⟨s, es, _, ws, _⟩ := session_frames target_pos kps kds dq tau_ff
    max_joint_delta current_jpos_des weight weight_margin num_time_steps.toNat 0
  have hz : s.weight = 0 := ws
  have hm : (0 : ℚ) ≤ weight_margin := by
    rw [weight_margin_eq]
    norm_num
  refine ⟨rfl, s, es, ws, fun k => ?_⟩
  rw [stopLoop_weight_eq weight_margin hm s hz.ge (hz.le.trans zero_le_one) k, hz, zero_sub]
  exact max_eq_left (neg_nonpos.mpr (mul_nonneg hm (Nat.cast_nonneg k)))

/-! ## The program's own tables -/

/-- Outside the four crank entries (table positions 15, 16, 21, 22) the
start pose equals the target pose. -/
theorem current_jpos_des_eq_target_pos (j : Fin 23) (h15 : j ≠ 15) (h16 : j ≠ 16)
    (h21 : j ≠ 21) (h22 : j ≠ 22) : current_jpos_des j = target_pos j := by
  fin_cases j
  · exact (show current_jpos_des 0 = 0.00 from rfl).trans (show target_pos 0 = 0.00 from rfl).symm
  · exact (show current_jpos_des 1 = 0.00 from rfl).trans (show target_pos 1 = 0.00 from rfl).symm
  · exact (show current_jpos_des 2 = 0.10 from rfl).trans (show target_pos 2 = 0.10 from rfl).symm
  · exact (show current_jpos_des 3 = -1.50 from rfl).trans (show target_pos 3 = -1.50 from rfl).symm
  · exact (show current_jpos_des 4 = 0.00 from rfl).trans (show target_pos 4 = 0.00 from rfl).symm
  · exact (show current_jpos_des 5 = -0.20 from rfl).trans (show target_pos 5 = -0.20 from rfl).symm
  · exact (show current_jpos_des 6 = 0.10 from rfl).trans (show target_pos 6 = 0.10 from rfl).symm
  · exact (show current_jpos_des 7 = 1.50 from rfl).trans (show target_pos 7 = 1.50 from rfl).symm
  · exact (show current_jpos_des 8 = 0.00 from rfl).trans (show target_pos 8 = 0.00 from rfl).symm
  · exact (show current_jpos_des 9 = 0.20 from rfl).trans (show target_pos 9 = 0.20 from rfl).symm
  · exact (show current_jpos_des 10 = 0.0 from rfl).trans (show target_pos 10 = 0.0 from rfl).symm
  · exact (show current_jpos_des 11 = -0.2 from rfl).trans (show target_pos 11 = -0.2 from rfl).symm
  · exact (show current_jpos_des 12 = 0 from rfl).trans (show target_pos 12 = 0 from rfl).symm
  · exact (show current_jpos_des 13 = 0 from rfl).trans (show target_pos 13 = 0 from rfl).symm
  · exact (show current_jpos_des 14 = 0.4 from rfl).trans (show target_pos 14 = 0.4 from rfl).symm
  · exact absurd rfl h15
  · exact absurd rfl h16
  · exact (show current_jpos_des 17 = -0.2 from rfl).trans (show target_pos 17 = -0.2 from rfl).symm
  · exact (show current_jpos_des 18 = 0 from rfl).trans (show target_pos 18 = 0 from rfl).symm
  · exact (show current_jpos_des 19 = 0 from rfl).trans (show target_pos 19 = 0 from rfl).symm
  · exact (show current_jpos_des 20 = 0.4 from rfl).trans (show target_pos 20 = 0.4 from rfl).symm
  · exact absurd rfl h21
  · exact absurd rfl h22

end B1LowSdk

namespace B1LowSdk

/-- The start and target values of the four crank entries. -/
theorem crank_values :
    (current_jpos_des 15 = -0.35 ∧ target_pos 15 = 0.2)
      ∧ (current_jpos_des 16 = 0.03 ∧ target_pos 16 = 0.14)
      ∧ (current_jpos_des 21 = -0.35 ∧ target_pos 21 = 0.2)
      ∧ (current_jpos_des 22 = -0.03 ∧ target_pos 22 = 0.14) :=
  ⟨⟨rfl, rfl⟩, ⟨rfl, rfl⟩, ⟨rfl, rfl⟩, ⟨rfl, rfl⟩⟩

end B1LowSdk

namespace B1LowSdk

/-! ## What "set control joints" writes -/

theorem atModify_eq {cmds : List MotorCmd} {i : ℕ} (f : MotorCmd → MotorCmd)
    (h : i < cmds.length) : atModify cmds i f = some (cmds.set i (f cmds[i])) := by
  unfold atModify
  rw [List.getElem?_eq_getElem h]

/-- The five setter calls for one joint leave the slot with exactly the
five values written. -/
theorem setControlJoint_eq {cmds : List MotorCmd} {slot : ℕ} (q vel kp kd tau : ℚ)
    (h : slot < cmds.length) :
    setControlJoint cmds slot q vel kp kd tau
      = some (cmds.set slot { q := q, dq := vel, tau := tau, kp := kp, kd := kd }) := by
  have hs : ∀ (c : List MotorCmd) (m : MotorCmd), slot < c.length →
      ∀ f : MotorCmd → MotorCmd, atModify (c.set slot m) slot f = some (c.set slot (f m)) := by
    intro c m hc f
    rw [atModify_eq f (by rw [List.length_set]; exact hc), List.getElem_set_self, List.set_set]
  unfold setControlJoint
  rw [atModify_eq _ h, Option.some_bind, hs _ _ h, Option.some_bind, hs _ _ h, Option.some_bind,
    hs _ _ h, Option.some_bind, hs _ _ h]

/-- After the loop over the joints in `l`, the slot of every joint in `l`
holds that joint's five values, and the other slots are as before. -/
theorem setControlJointsFrom_spec (l : List (Fin 23)) (hl : l.Nodup) (cmds : List MotorCmd)
    (cur gp gd : Fin 23 → ℚ) (vel tau : ℚ) (h : cmds.length = kJointCnt) :
    ∃ out, setControlJointsFrom l cmds cur gp gd vel tau = some out
      ∧ out.length = kJointCnt
      ∧ (∀ j ∈ l, out[(low_joints j).toNat]?
          = some { q := cur j, dq := vel, tau := tau, kp := gp j, kd := gd j })
      ∧ (∀ k : ℕ, (∀ j ∈ l, (low_joints j).toNat ≠ k) → out[k]? = cmds[k]?) := by
  induction l generalizing cmds with
  | nil => exact ⟨cmds, rfl, h, fun j hj => absurd hj (List.not_mem_nil j), fun _ _ => rfl⟩
  | cons j t ih =>
    have hnd := List.nodup_cons.mp hl
    have hslot : (low_joints j).toNat < cmds.length := h ▸ low_joints_lt j
    have e₁ := setControlJoint_eq (cur j) vel (gp j) (gd j) tau hslot
    obtain ⟨c, ec, lc, hin, hout⟩ := ih hnd.2
      (cmds.set (low_joints j).toNat
        { q := cur j, dq := vel, tau := tau, kp := gp j, kd := gd j })
      ((List.length_set _ _ _).trans h)
    refine ⟨c, ?_, lc, ?_, ?_⟩
    · unfold setControlJointsFrom
      rw [e₁, Option.some_bind, ec]
    · intro j' hj'
      rcases List.mem_cons.mp hj' with he | ht
      · rw [he, hout (low_joints j).toNat (fun j'' hj'' hs =>
          hnd.1 (low_joints_toNat_injective j'' j hs ▸ hj'')), List.getElem?_set_self hslot]
      · exact hin j' ht
    · intro k hk
      rw [hout k (fun j' hj' => hk j' (List.mem_cons_of_mem j hj')),
        List.getElem?_set_ne (hk j (List.mem_cons_self j t))]

/-- One lift cycle writes, into the slot of every configured joint, the
position computed in this cycle, the velocity, the gains and the torque. -/
theorem liftCycle_frame (target gp gd : Fin 23 → ℚ) (vel tau d : ℚ) (s s' : State)
    (h : s.msg.motor_cmd.length = kJointCnt)
    (hs : liftCycle target gp gd vel tau d s = some s') :
    s'.written = s.written ++ [s'.msg]
      ∧ s'.current_jpos_des = updateJposDes s.current_jpos_des target d
      ∧ ∀ j : Fin 23, s'.msg.motor_cmd[(low_joints j).toNat]?
          = some { q := s'.current_jpos_des j, dq := vel, tau := tau, kp := gp j, kd := gd j } := by
  obtain ⟨c, ec, _, hin, _⟩ := setControlJointsFrom_spec (List.finRange 23)
    (List.nodup_finRange 23) s.msg.motor_cmd (updateJposDes s.current_jpos_des target d)
    gp gd vel tau h
  unfold liftCycle setControlJoints at hs
  simp only [ec, Option.some_bind, Option.some.injEq] at hs
  subst hs
  exact ⟨rfl, rfl, fun j => hin j (List.mem_finRange j)⟩

/-- C14. Frame population: in every cycle `i + 1` of the lift loop (from
state `a` to state `b`), exactly one frame `f` is written, and for every
configured joint `j` its slot `low_joints[j]` in `f` holds the position
`current_jpos_des[j]` computed in that same cycle, velocity 0, `kps[j]`,
`kds[j]` and torque 0; so the gains of a slot are the same in every
cycle. -/
theorem lift_frame_population (cur0 target : Fin 23 → ℚ) (d w0 : ℚ) (i : ℕ) (j : Fin 23) :
    ∃ a b f, liftLoop target kps kds dq tau_ff d i (initState cur0 w0) = some a
      ∧ liftLoop target kps kds dq tau_ff d (i + 1) (initState cur0 w0) = some b
      ∧ b.written = a.written ++ [f]
      ∧ b.current_jpos_des j = step (a.current_jpos_des j) (target j) d
      ∧ f.motor_cmd[(low_joints j).toNat]?
          = some { q := b.current_jpos_des j, dq := 0, tau := 0, kp := kps j, kd := kds j } := by
  obtain ⟨a, ea, la, _⟩ := liftLoop_some target kps kds dq tau_ff d i (initState cur0 w0)
    initMsg_length
  obtain ⟨b, eb, _⟩ := liftCycle_some target kps kds dq tau_ff d a la
  obtain ⟨hw, hc, hf⟩ := liftCycle_frame target kps kds dq tau_ff d a b la eb
  refine ⟨a, b, b.msg, ea, ?_, hw, ?_, hf j⟩
  · rw [liftLoop_succ, ea, Option.some_bind, eb]
  · rw [hc, updateJposDes_apply]

end B1LowSdk

namespace B1LowSdk

/-! ## The sleep time in single precision -/

theorem int_log_two_eq {r : ℚ} {e : ℤ} (h₁ : (2 : ℚ) ^ e ≤ r) (h₂ : r < (2 : ℚ) ^ (e + 1)) :
    Int.log 2 r = e := by
  have hr : 0 < r := lt_of_lt_of_le (zpow_pos (by norm_num) e) h₁
  have h₁' : ((2 : ℕ) : ℚ) ^ e ≤ r := by exact_mod_cast h₁
  have h₂' : r < ((2 : ℕ) : ℚ) ^ (e + 1) := by exact_mod_cast h₂
  have hle : e ≤ Int.log 2 r := (Int.zpow_le_iff_le_log (by norm_num) hr).mp h₁'
  have hlt : Int.log 2 r < e + 1 := (Int.lt_zpow_iff_log_lt (by norm_num) hr).mp h₂'
  omega

theorem roundHalfEven_of_lt {x : ℚ} {z : ℤ} (h₁ : (z : ℚ) ≤ x) (h₂ : x - z < 1 / 2) :
    roundHalfEven x = z := by
  have hf : ⌊x⌋ = z := Int.floor_eq_iff.mpr ⟨h₁, by linarith⟩
  unfold roundHalfEven
  rw [hf, if_pos h₂]

theorem roundHalfEven_of_gt {x : ℚ} {z : ℤ} (h₁ : 1 / 2 < x - z) (h₂ : x < z + 1) :
    roundHalfEven x = z + 1 := by
  have hf : ⌊x⌋ = z := Int.floor_eq_iff.mpr ⟨by linarith, h₂⟩
  unfold roundHalfEven
  rw [hf, if_neg (not_lt.mpr h₁.le), if_pos h₁]

theorem f32_eq {x : ℚ} {e m : ℤ} (h₁ : (2 : ℚ) ^ e ≤ |x|) (h₂ : |x| < (2 : ℚ) ^ (e + 1))
    (hm : roundHalfEven (x / 2 ^ (e - 23)) = m) : f32 x = m * 2 ^ (e - 23) := by
  have hx : x ≠ 0 := by
    intro h0
    rw [h0, abs_zero] at h₁
    exact absurd h₁ (not_le.mpr (zpow_pos (by norm_num) e))
  unfold f32
  rw [if_neg hx, int_log_two_eq h₁ h₂, hm]

/-- The `float` value of the literal `0.02f`. -/
theorem f32_control_dt : f32 control_dt = 5368709 / 268435456 := by
  have h : f32 control_dt = ((10737418 : ℤ) : ℚ) * 2 ^ ((-6 : ℤ) - 23) := by
    apply f32_eq
    · norm_num [control_dt, abs_of_pos]
    · norm_num [control_dt, abs_of_pos]
    · apply roundHalfEven_of_lt
      · norm_num [control_dt]
      · norm_num [control_dt]
  rw [h]
  norm_num

/-- The `float` value of the literal `0.001f`. -/
theorem f32_one_thousandth : f32 0.001 = 8589935 / 8589934592 := by
  have h : f32 0.001 = (((8589934 : ℤ) + 1 : ℤ) : ℚ) * 2 ^ ((-10 : ℤ) - 23) := by
    apply f32_eq
    · norm_num [abs_of_pos]
    · norm_num [abs_of_pos]
    · apply roundHalfEven_of_gt
      · norm_num
      · norm_num
  rw [h]
  norm_num

/-- C16. The sleep time in single precision: `0.02f` is
5368709 / 2^28 and `0.001f` is 8589935 / 2^33, their exact quotient is
171798688 / 8589935 (just below 20), the `float` quotient is
10485759 / 2^19 (19.999998...), and the truncating conversion to `int`
gives 19, not 20; the quotient truncates to 19 also without the rounding of
the division. -/
theorem sleep_time_eq :
    f32 control_dt = 5368709 / 268435456
      ∧ f32 0.001 = 8589935 / 8589934592
      ∧ f32 control_dt / f32 0.001 = 171798688 / 8589935
      ∧ f32 (f32 control_dt / f32 0.001) = 10485759 / 524288
      ∧ sleep_time = 19
      ∧ toInt (f32 control_dt / f32 0.001) = 19
      ∧ sleep_time ≠ 20 := by
  have hq : f32 control_dt / f32 0.001 = 171798688 / 8589935 := by
    rw [f32_control_dt, f32_one_thousandth]
    norm_num
  have hr : f32 (f32 control_dt / f32 0.001) = 10485759 / 524288 := by
    have h : f32 (171798688 / 8589935) = ((10485759 : ℤ) : ℚ) * 2 ^ ((4 : ℤ) - 23) := by
      apply f32_eq
      · norm_num [abs_of_pos]
      · norm_num [abs_of_pos]
      · apply roundHalfEven_of_lt
        · norm_num
        · norm_num
    rw [hq, h]
    norm_num
  have hs : sleep_time = 19 := by
    unfold sleep_time toInt
    rw [hr, if_pos (by norm_num)]
    exact Int.floor_eq_iff.mpr ⟨by norm_num, by norm_num⟩
  have ht : toInt (f32 control_dt / f32 0.001) = 19 := by
    unfold toInt
    rw [hq, if_pos (by norm_num)]
    exact Int.floor_eq_iff.mpr ⟨by norm_num, by norm_num⟩
  refine ⟨f32_control_dt, f32_one_thousandth, hq, hr, hs, ht, ?_⟩
  rw [hs]
  decide

end B1LowSdk

namespace B1LowSdk

/-! ## General facts about rounding -/

theorem roundHalfEven_floor_or (x : ℚ) :
    roundHalfEven x = ⌊x⌋ ∨ roundHalfEven x = ⌊x⌋ + 1 := by
  unfold roundHalfEven
  split_ifs <;> simp

theorem roundHalfEven_intCast (z : ℤ) : roundHalfEven (z : ℚ) = z := by
  unfold roundHalfEven
  rw [Int.floor_intCast, sub_self, if_pos (by norm_num)]

theorem abs_roundHalfEven_sub_le (x : ℚ) : |(roundHalfEven x : ℚ) - x| ≤ 1 / 2 := by
  have h₁ := Int.floor_le x
  have h₂ := Int.lt_floor_add_one x
  unfold roundHalfEven
  split_ifs with ha hb hc
  · rw [abs_le]; constructor <;> linarith
  · rw [abs_le]; push_cast; constructor <;> linarith
  · rw [abs_le]; constructor <;> linarith
  · rw [abs_le]; push_cast; constructor <;> linarith

theorem roundHalfEven_mono {x y : ℚ} (h : x ≤ y) : roundHalfEven x ≤ roundHalfEven y := by
  have hf : ⌊x⌋ ≤ ⌊y⌋ := Int.floor_mono h
  rcases lt_or_eq_of_le hf with hlt | heq
  · have hx : roundHalfEven x ≤ ⌊x⌋ + 1 := by
      rcases roundHalfEven_floor_or x with e | e <;> omega
    have hy : ⌊y⌋ ≤ roundHalfEven y := by
      rcases roundHalfEven_floor_or y with e | e <;> omega
    omega
  · unfold roundHalfEven
    rw [← heq]
    split_ifs <;> first | omega | (exfalso; linarith)

theorem roundHalfEven_neg (x : ℚ) : roundHalfEven (-x) = -roundHalfEven x := by
  by_cases hx : (⌊x⌋ : ℚ) = x
  · rw [← hx, ← Int.cast_neg, roundHalfEven_intCast, roundHalfEven_intCast]
  · have h₁ : (⌊x⌋ : ℚ) < x := lt_of_le_of_ne (Int.floor_le x) hx
    have h₂ := Int.lt_floor_add_one x
    have hf : ⌊-x⌋ = -⌊x⌋ - 1 := by
      rw [Int.floor_eq_iff]
      push_cast
      constructor <;> linarith
    unfold roundHalfEven
    rw [hf]
    push_cast
    split_ifs <;> first | omega | (exfalso; linarith)

/-! ## General facts about `f32` -/

theorem f32_zero : f32 0 = 0 := by
  unfold f32
  rw [if_pos rfl]

theorem two_zpow_log_le {x : ℚ} (hx : 0 < x) : (2 : ℚ) ^ Int.log 2 x ≤ x := by
  have h := Int.zpow_log_le_self (b := 2) (by norm_num) hx
  exact_mod_cast h

theorem lt_two_zpow_log_succ (x : ℚ) : x < (2 : ℚ) ^ (Int.log 2 x + 1) := by
  have h := Int.lt_zpow_succ_log_self (b := 2) (by norm_num) x
  exact_mod_cast h

theorem two_zpow_split (e : ℤ) : (2 : ℚ) ^ e = 8388608 * 2 ^ (e - 23) := by
  have h : (2 : ℚ) ^ e = 2 ^ ((23 : ℤ) + (e - 23)) := by
    congr 1
    ring
  rw [h, zpow_add₀ (by norm_num)]
  norm_num

theorem two_zpow_succ_split (e : ℤ) : (2 : ℚ) ^ (e + 1) = 16777216 * 2 ^ (e - 23) := by
  have h : (2 : ℚ) ^ (e + 1) = 2 ^ ((24 : ℤ) + (e - 23)) := by
    congr 1
    ring
  rw [h, zpow_add₀ (by norm_num)]
  norm_num

/-- For positive `x` in the binade of exponent `e`, the scaled value lies in
`[2^23, 2^24)` and its rounding in `[2^23, 2^24]`. -/
theorem roundHalfEven_scaled_bounds {x : ℚ} {e : ℤ} (h₁ : (2 : ℚ) ^ e ≤ x)
    (h₂ : x < (2 : ℚ) ^ (e + 1)) :
    8388608 ≤ roundHalfEven (x / 2 ^ (e - 23)) ∧ roundHalfEven (x / 2 ^ (e - 23)) ≤ 16777216 := by
  have hq : (0 : ℚ) < 2 ^ (e - 23) := zpow_pos (by norm_num) _
  have hlo : ((8388608 : ℤ) : ℚ) ≤ x / 2 ^ (e - 23) := by
    rw [le_div_iff₀ hq]
    push_cast
    rw [← two_zpow_split]
    exact h₁
  have hhi : x / 2 ^ (e - 23) ≤ ((16777216 : ℤ) : ℚ) := by
    rw [div_le_iff₀ hq]
    push_cast
    rw [← two_zpow_succ_split]
    exact h₂.le
  have a := roundHalfEven_mono hlo
  have b := roundHalfEven_mono hhi
  rw [roundHalfEven_intCast] at a b
  exact ⟨a, b⟩

theorem f32_of_pos {x : ℚ} (hx : 0 < x) :
    f32 x = roundHalfEven (x / 2 ^ (Int.log 2 x - 23)) * 2 ^ (Int.log 2 x - 23) := by
  unfold f32
  rw [if_neg hx.ne', abs_of_pos hx]

theorem f32_bounds {x : ℚ} (hx : 0 < x) :
    (2 : ℚ) ^ Int.log 2 x ≤ f32 x ∧ f32 x ≤ (2 : ℚ) ^ (Int.log 2 x + 1) := by
  have hq : (0 : ℚ) < 2 ^ (Int.log 2 x - 23) := zpow_pos (by norm_num) _
  obtain ⟨a, b⟩ := roundHalfEven_scaled_bounds (two_zpow_log_le hx) (lt_two_zpow_log_succ x)
  have a' : (8388608 : ℚ) ≤ (roundHalfEven (x / 2 ^ (Int.log 2 x - 23)) : ℚ) := by
    exact_mod_cast a
  have b' : (roundHalfEven (x / 2 ^ (Int.log 2 x - 23)) : ℚ) ≤ 16777216 := by
    exact_mod_cast b
  rw [f32_of_pos hx, two_zpow_split, two_zpow_succ_split]
  exact ⟨mul_le_mul_of_nonneg_right a' hq.le, mul_le_mul_of_nonneg_right b' hq.le⟩

theorem f32_pos {x : ℚ} (hx : 0 < x) : 0 < f32 x :=
  lt_of_lt_of_le (zpow_pos (by norm_num) _) (f32_bounds hx).1

theorem f32_neg (x : ℚ) : f32 (-x) = -f32 x := by
  unfold f32
  by_cases hx : x = 0
  · rw [if_pos hx, if_pos (by rw [hx, neg_zero]), neg_zero]
  · rw [if_neg hx, if_neg (neg_ne_zero.mpr hx), abs_neg, neg_div, roundHalfEven_neg]
    push_cast
    ring

theorem f32_mono_of_pos {x y : ℚ} (hx : 0 < x) (h : x ≤ y) : f32 x ≤ f32 y := by
  have hy : 0 < y := lt_of_lt_of_le hx h
  have hlog : Int.log 2 x ≤ Int.log 2 y := Int.log_mono_right hx h
  rcases lt_or_eq_of_le hlog with hlt | heq
  · calc f32 x ≤ (2 : ℚ) ^ (Int.log 2 x + 1) := (f32_bounds hx).2
      _ ≤ (2 : ℚ) ^ Int.log 2 y := zpow_le_zpow_right₀ (by norm_num) (by omega)
      _ ≤ f32 y := (f32_bounds hy).1
  · have hq : (0 : ℚ) < 2 ^ (Int.log 2 y - 23) := zpow_pos (by norm_num) _
    rw [f32_of_pos hx, f32_of_pos hy, heq]
    have hr : roundHalfEven (x / 2 ^ (Int.log 2 y - 23))
        ≤ roundHalfEven (y / 2 ^ (Int.log 2 y - 23)) :=
      roundHalfEven_mono (div_le_div_of_nonneg_right h hq.le)
    exact mul_le_mul_of_nonneg_right (by exact_mod_cast hr) hq.le

/-- Rounding to single precision is monotone. -/
theorem f32_mono {x y : ℚ} (h : x ≤ y) : f32 x ≤ f32 y := by
  rcases lt_trichotomy 0 x with hx | hx | hx
  · exact f32_mono_of_pos hx h
  · rw [← hx, f32_zero]
    rcases eq_or_lt_of_le (hx ▸ h : (0 : ℚ) ≤ y) with hy | hy
    · rw [← hy, f32_zero]
    · exact (f32_pos hy).le
  · have hnx : f32 x < 0 := by
      have := f32_pos (neg_pos.mpr hx)
      rw [f32_neg] at this
      linarith
    rcases lt_trichotomy 0 y with hy | hy | hy
    · exact le_trans hnx.le (f32_pos hy).le
    · rw [← hy, f32_zero]
      exact hnx.le
    · have := f32_mono_of_pos (neg_pos.mpr hy) (neg_le_neg h)
      rw [f32_neg, f32_neg] at this
      linarith

/-- The rounding error is at most `|x| / 2^24`. -/
theorem abs_f32_sub_le (x : ℚ) : |f32 x - x| ≤ |x| / 16777216 := by
  by_cases hx : x = 0
  · rw [hx, f32_zero]
    norm_num
  · have hpos : 0 < |x| := abs_pos.mpr hx
    have hq : (0 : ℚ) < 2 ^ (Int.log 2 |x| - 23) := zpow_pos (by norm_num) _
    have hlow := two_zpow_log_le hpos
    rw [two_zpow_split] at hlow
    have herr := abs_roundHalfEven_sub_le (x / 2 ^ (Int.log 2 |x| - 23))
    have hrew : f32 x - x
        = ((roundHalfEven (x / 2 ^ (Int.log 2 |x| - 23)) : ℚ) - x / 2 ^ (Int.log 2 |x| - 23))
          * 2 ^ (Int.log 2 |x| - 23) := by
      unfold f32
      rw [if_neg hx]
      field_simp
    rw [hrew, abs_mul, abs_of_pos hq]
    calc _ ≤ 1 / 2 * 2 ^ (Int.log 2 |x| - 23) := mul_le_mul_of_nonneg_right herr hq.le
      _ ≤ |x| / 16777216 := by
        rw [le_div_iff₀ (by norm_num)]
        linarith

/-- A rounded value is a single-precision value: rounding it again changes
nothing. -/
theorem f32_f32 (x : ℚ) : f32 (f32 x) = f32 x := by
  have hpos : ∀ y : ℚ, 0 < y → f32 (f32 y) = f32 y := by
    intro y hy
    obtain ⟨a, b⟩ := roundHalfEven_scaled_bounds (two_zpow_log_le hy) (lt_two_zpow_log_succ y)
    have hq : (0 : ℚ) < 2 ^ (Int.log 2 y - 23) := zpow_pos (by norm_num) _
    have hv := f32_of_pos hy
    rcases lt_or_eq_of_le b with hlt | heq
    · have hlog : Int.log 2 (f32 y) = Int.log 2 y := by
        apply int_log_two_eq (f32_bounds hy).1
        rw [hv, two_zpow_succ_split]
        exact mul_lt_mul_of_pos_right (by exact_mod_cast hlt) hq
      rw [f32_of_pos (f32_pos hy), hlog]
      nth_rewrite 1 [hv]
      rw [mul_div_assoc, div_self hq.ne', mul_one, roundHalfEven_intCast, ← hv]
    · have hval : f32 y = (2 : ℚ) ^ (Int.log 2 y + 1) := by
        rw [hv, heq, two_zpow_succ_split]
        norm_num
      have hlog : Int.log 2 (f32 y) = Int.log 2 y + 1 := by
        apply int_log_two_eq
        · rw [hval]
        · rw [hval]
          exact zpow_lt_zpow_right₀ (by norm_num) (by omega)
      have hq' : (0 : ℚ) < 2 ^ (Int.log 2 y + 1 - 23) := zpow_pos (by norm_num) _
      rw [f32_of_pos (f32_pos hy), hlog]
      nth_rewrite 1 [hval]
      rw [two_zpow_split (Int.log 2 y + 1), mul_div_assoc, div_self hq'.ne', mul_one]
      have hc : (8388608 : ℚ) = ((8388608 : ℤ) : ℚ) := by norm_num
      rw [hc, roundHalfEven_intCast, hval, two_zpow_split (Int.log 2 y + 1)]
      norm_num
  rcases lt_trichotomy 0 x with hx | hx | hx
  · exact hpos x hx
  · rw [← hx, f32_zero, f32_zero]
  · have h := hpos (-x) (neg_pos.mpr hx)
    rw [f32_neg, f32_neg] at h
    exact neg_injective h

end B1LowSdk

namespace B1LowSdk

/-! ## Evaluating a rounding -/

theorem roundHalfEven_eq {y : ℚ} {m : ℤ}
    (h : (y - m < 1 / 2 ∧ (m : ℚ) - y < 1 / 2)
      ∨ ((y - m = 1 / 2 ∨ (m : ℚ) - y = 1 / 2) ∧ m % 2 = 0)) :
    roundHalfEven y = m := by
  rcases h with ⟨h₁, h₂⟩ | ⟨h₁ | h₁, hm⟩
  · have hr := abs_le.mp (abs_roundHalfEven_sub_le y)
    have hlt : ((roundHalfEven y - m : ℤ) : ℚ) < 1 := by
      push_cast
      linarith [hr.2]
    have hgt : ((-1 : ℤ) : ℚ) < ((roundHalfEven y - m : ℤ) : ℚ) := by
      push_cast
      linarith [hr.1]
    have a : roundHalfEven y - m < 1 := by exact_mod_cast hlt
    have b : -1 < roundHalfEven y - m := by exact_mod_cast hgt
    omega
  · have hf : ⌊y⌋ = m := Int.floor_eq_iff.mpr ⟨by linarith, by linarith⟩
    unfold roundHalfEven
    rw [hf, if_neg (by linarith), if_neg (by linarith), if_pos hm]
  · have hf : ⌊y⌋ = m - 1 := Int.floor_eq_iff.mpr ⟨by push_cast; linarith, by push_cast; linarith⟩
    unfold roundHalfEven
    rw [hf, if_neg (by push_cast; linarith), if_neg (by push_cast; linarith),
      if_neg (by omega)]
    omega

/-- The single-precision value of `x`, from the exponent `e` of its binade
(`q = 2 ^ (e - 23)` is the spacing there) and the rounded multiple `m`. -/
theorem f32_eval (e m : ℤ) (q : ℚ) {x v : ℚ} (hq : (2 : ℚ) ^ (e - 23) = q)
    (hb : (8388608 * q ≤ x ∧ x < 16777216 * q) ∨ (8388608 * q ≤ -x ∧ -x < 16777216 * q))
    (hr : (x / q - m < 1 / 2 ∧ (m : ℚ) - x / q < 1 / 2)
      ∨ ((x / q - m = 1 / 2 ∨ (m : ℚ) - x / q = 1 / 2) ∧ m % 2 = 0))
    (hv : (m : ℚ) * q = v) : f32 x = v := by
  have hqpos : 0 < q := hq ▸ zpow_pos (by norm_num) _
  have habs : 8388608 * q ≤ |x| ∧ |x| < 16777216 * q := by
    rcases hb with ⟨h₁, h₂⟩ | ⟨h₁, h₂⟩
    · rw [abs_of_pos (lt_of_lt_of_le (by positivity) h₁)]
      exact ⟨h₁, h₂⟩
    · have hneg : x < 0 := by
        have : 0 < -x := lt_of_lt_of_le (by positivity) h₁
        linarith
      rw [abs_of_neg hneg]
      exact ⟨h₁, h₂⟩
  have hlog : Int.log 2 |x| = e := by
    apply int_log_two_eq
    · rw [two_zpow_split, hq]
      exact habs.1
    · rw [two_zpow_succ_split, hq]
      exact habs.2
  have hx : x ≠ 0 := by
    intro h0
    rw [h0, abs_zero] at habs
    linarith [habs.1]
  unfold f32
  rw [if_neg hx, hlog, hq, roundHalfEven_eq hr, hv]

/-- The double-precision value of `x`, as in `f32_eval`. -/
theorem f64_eval (e m : ℤ) (q : ℚ) {x v : ℚ} (hq : (2 : ℚ) ^ (e - 52) = q)
    (hb : (4503599627370496 * q ≤ x ∧ x < 9007199254740992 * q)
      ∨ (4503599627370496 * q ≤ -x ∧ -x < 9007199254740992 * q))
    (hr : (x / q - m < 1 / 2 ∧ (m : ℚ) - x / q < 1 / 2)
      ∨ ((x / q - m = 1 / 2 ∨ (m : ℚ) - x / q = 1 / 2) ∧ m % 2 = 0))
    (hv : (m : ℚ) * q = v) : f64 x = v := by
  have hqpos : 0 < q := hq ▸ zpow_pos (by norm_num) _
  have habs : 4503599627370496 * q ≤ |x| ∧ |x| < 9007199254740992 * q := by
    rcases hb with ⟨h₁, h₂⟩ | ⟨h₁, h₂⟩
    · rw [abs_of_pos (lt_of_lt_of_le (by positivity) h₁)]
      exact ⟨h₁, h₂⟩
    · have hneg : x < 0 := by
        have : 0 < -x := lt_of_lt_of_le (by positivity) h₁
        linarith
      rw [abs_of_neg hneg]
      exact ⟨h₁, h₂⟩
  have hsplit : ∀ k : ℤ, (2 : ℚ) ^ k = 4503599627370496 * 2 ^ (k - 52) := by
    intro k
    have h : (2 : ℚ) ^ k = 2 ^ ((52 : ℤ) + (k - 52)) := by
      congr 1
      ring
    rw [h, zpow_add₀ (by norm_num)]
    norm_num
  have hlog : Int.log 2 |x| = e := by
    apply int_log_two_eq
    · rw [hsplit e, hq]
      exact habs.1
    · have h2 : (2 : ℚ) ^ (e + 1) = 2 * 2 ^ e := by
        rw [zpow_add_one₀ (by norm_num)]
        ring
      rw [h2, hsplit e, hq]
      linarith [habs.2]
  have hx : x ≠ 0 := by
    intro h0
    rw [h0, abs_zero] at habs
    linarith [habs.1]
  unfold f64
  rw [if_neg hx, hlog, hq, roundHalfEven_eq hr, hv]

/-! ## The limiter step in single precision -/

theorem F32.updateJposDes_joint (cur target : Fin 23 → ℚ) (d : ℚ) (j : Fin 23) :
    F32.updateJposDes cur target d j = F32.step (cur j) (target j) d := by
  unfold F32.updateJposDes
  have h := foldl_update_apply
    (fun i x => f32 (x + clamp (f32 (target i - x)) (-d) d)) (List.finRange 23)
    (List.nodup_finRange 23) cur j
  simp only [List.mem_finRange, if_true] at h
  rw [h]
  rfl

theorem F32.jposAfter_succ_apply (n : ℕ) (cur target : Fin 23 → ℚ) (d : ℚ) (j : Fin 23) :
    F32.jposAfter (n + 1) cur target d j
      = F32.step (F32.jposAfter n cur target d j) (target j) d := by
  show F32.updateJposDes _ _ _ j = _
  rw [F32.updateJposDes_joint]

theorem F32.jposAfter_iterate (n : ℕ) (cur target : Fin 23 → ℚ) (d : ℚ) (j : Fin 23) :
    F32.jposAfter n cur target d j = (fun x => F32.step x (target j) d)^[n] (cur j) := by
  induction n with
  | zero => rfl
  | succ k ih => rw [Function.iterate_succ_apply', ← ih, F32.jposAfter_succ_apply]

/-- At the target the step returns the target. -/
theorem F32.step_self {t d : ℚ} (ht : f32 t = t) (hd : 0 ≤ d) : F32.step t t d = t := by
  unfold F32.step
  rw [sub_self, f32_zero, clamp_of_le (by linarith) hd, add_zero, ht]

/-- At least `d` below the target, the step is the rounded `cur + d`. -/
theorem F32.step_far_up {c t d : ℚ} (hd : f32 d = d) (h0 : 0 ≤ d) (h : d ≤ t - c) :
    F32.step c t d = f32 (c + d) := by
  have hv : d ≤ f32 (t - c) := hd ▸ f32_mono h
  unfold F32.step
  rcases eq_or_lt_of_le hv with he | hlt
  · rw [← he, clamp_of_le (by linarith) le_rfl]
  · rw [clamp_of_hi_lt (by linarith) hlt]

/-- At least `d` above the target, the step is the rounded `cur - d`. -/
theorem F32.step_far_down {c t d : ℚ} (hd : f32 d = d) (h0 : 0 ≤ d) (h : t - c ≤ -d) :
    F32.step c t d = f32 (c - d) := by
  have hv : f32 (t - c) ≤ -d := by
    have := f32_mono h
    rwa [f32_neg, hd] at this
  unfold F32.step
  rcases eq_or_lt_of_le hv with he | hlt
  · rw [he, clamp_of_le le_rfl (by linarith)]
    ring_nf
  · rw [clamp_of_lt_lo hlt]
    ring_nf

/-- When the rounded difference is within `d`, the step adds it. -/
theorem F32.step_near {c t d : ℚ} (h : |f32 (t - c)| ≤ d) :
    F32.step c t d = f32 (c + f32 (t - c)) := by
  have h' := abs_le.mp h
  unfold F32.step
  rw [clamp_of_le h'.1 h'.2]

/-- The displacement of one step: the clamped increment is at most `d`, and
the rounding of the sum adds at most `(|c| + d) / 2^24`. -/
theorem F32.abs_step_sub_le (c t d : ℚ) (hd : 0 ≤ d) :
    |F32.step c t d - c| ≤ d + (|c| + d) / 16777216 := by
  have hcl : |clamp (f32 (t - c)) (-d) d| ≤ d := abs_clamp_le hd
  have herr := abs_f32_sub_le (c + clamp (f32 (t - c)) (-d) d)
  have hsum : |c + clamp (f32 (t - c)) (-d) d| ≤ |c| + d :=
    le_trans (abs_add _ _) (by linarith)
  have hsplit : F32.step c t d - c
      = (f32 (c + clamp (f32 (t - c)) (-d) d) - (c + clamp (f32 (t - c)) (-d) d))
        + clamp (f32 (t - c)) (-d) d := by
    unfold F32.step
    ring
  rw [hsplit]
  calc _ ≤ |f32 (c + clamp (f32 (t - c)) (-d) d) - (c + clamp (f32 (t - c)) (-d) d)|
          + |clamp (f32 (t - c)) (-d) d| := abs_add _ _
    _ ≤ |c + clamp (f32 (t - c)) (-d) d| / 16777216 + d := add_le_add herr hcl
    _ ≤ d + (|c| + d) / 16777216 := by
        have : |c + clamp (f32 (t - c)) (-d) d| / 16777216 ≤ (|c| + d) / 16777216 :=
          div_le_div_of_nonneg_right hsum (by norm_num)
        linarith

end B1LowSdk

namespace B1LowSdk

theorem f32_eq_zero {x : ℚ} (h : x = 0) : f32 x = 0 := by
  rw [h, f32_zero]

/-- A step whose rounded difference `δ` is within `d`. -/
theorem F32.step_near_eval (δ : ℚ) {c t d b : ℚ} (hδ : f32 (t - c) = δ) (hle : -d ≤ δ ∧ δ ≤ d)
    (hv : f32 (c + δ) = b) : F32.step c t d = b := by
  rw [F32.step_near (by rw [hδ]; exact abs_le.mpr hle), hδ, hv]

/-- A list of consecutive values of `f`, none of them `t` except possibly
the last, gives the iterates of `f`. -/
theorem iterate_of_chain (f : ℚ → ℚ) (t : ℚ) (l : List ℚ) (a : ℚ)
    (h : List.Chain (fun x y => x ≠ t ∧ f x = y) a l) (n : ℕ) (hn : n ≤ l.length) :
    (a :: l)[n]? = some (f^[n] a) ∧ (n < l.length → f^[n] a ≠ t) := by
  induction l generalizing a n with
  | nil =>
    have h0 : n = 0 := Nat.le_zero.mp hn
    subst h0
    exact ⟨rfl, fun hlt => absurd hlt (Nat.lt_irrefl 0)⟩
  | cons b l ih =>
    obtain ⟨⟨hne, hfa⟩, hrest⟩ := List.chain_cons.mp h
    cases n with
    | zero => exact ⟨rfl, fun _ => hne⟩
    | succ k =>
      have hk : k ≤ l.length := Nat.le_of_succ_le_succ hn
      obtain ⟨h₁, h₂⟩ := ih b hrest k hk
      rw [Function.iterate_succ_apply, hfa, List.getElem?_cons_succ]
      exact ⟨h₁, fun hlt => h₂ (Nat.lt_of_succ_lt_succ hlt)⟩

/-- Once an iterate is at a fixed point, all later iterates are. -/
theorem iterate_eq_of_fixed (f : ℚ → ℚ) {t a : ℚ} {k : ℕ} (hk : f^[k] a = t) (ht : f t = t)
    (n : ℕ) (hn : k ≤ n) : f^[n] a = t := by
  obtain ⟨i, rfl⟩ := Nat.exists_eq_add_of_le hn
  rw [Nat.add_comm, Function.iterate_add_apply, hk]
  exact Function.iterate_fixed ht i

end B1LowSdk

namespace B1LowSdk

set_option maxHeartbeats 4000000 in
/-- The single-precision run of table position 15 (and 21): start, then the value after each of the 56 cycles. -/
theorem crank15_chain :
    List.Chain (fun x y : ℚ => x ≠ (13421773 / 67108864) ∧ F32.step x (13421773 / 67108864) (5368709 / 536870912) = y) (-11744051 / 33554432)
      [-11408507 / 33554432,
      -11072963 / 33554432,
      -10737419 / 33554432,
      -10401875 / 33554432,
      -10066331 / 33554432,
      -9730787 / 33554432,
      -9395243 / 33554432,
      -9059699 / 33554432,
      -8724155 / 33554432,
      -8388611 / 33554432,
      -16106133 / 67108864,
      -3858761 / 16777216,
      -14763955 / 67108864,
      -7046433 / 33554432,
      -13421777 / 67108864,
      -398459 / 2097152,
      -12079599 / 67108864,
      -5704255 / 33554432,
      -10737421 / 67108864,
      -2516583 / 16777216,
      -9395243 / 67108864,
      -4362077 / 33554432,
      -16106131 / 134217728,
      -7381977 / 67108864,
      -13421777 / 134217728,
      -754975 / 8388608,
      -10737423 / 134217728,
      -4697623 / 67108864,
      -8053069 / 134217728,
      -1677723 / 33554432,
      -5368715 / 134217728,
      -16106151 / 536870912,
      -5368721 / 268435456,
      -5368733 / 536870912,
      -3 / 67108864,
      5368685 / 536870912,
      5368697 / 268435456,
      16106103 / 536870912,
      5368703 / 134217728,
      209715 / 4194304,
      8053057 / 134217728,
      4697617 / 67108864,
      10737411 / 134217728,
      3019897 / 33554432,
      13421765 / 134217728,
      7381971 / 67108864,
      16106119 / 134217728,
      2181037 / 16777216,
      9395237 / 67108864,
      5033163 / 33554432,
      10737415 / 67108864,
      1426063 / 8388608,
      12079593 / 67108864,
      6375341 / 33554432,
      13421771 / 67108864,
      13421773 / 67108864] := by
  have hD : f32 (5368709 / 536870912) = (5368709 / 536870912) :=
    f32_eval (-7) 10737418 (1 / 1073741824) (by norm_num) (by norm_num) (by norm_num) (by norm_num)
  have h0 : (0 : ℚ) ≤ (5368709 / 536870912) := by norm_num
  refine List.Chain.cons ⟨by norm_num, ?_⟩ ?_
  · exact (F32.step_far_up hD h0 (by norm_num)).trans
      (f32_eval (-2) (-11408507) (1 / 33554432) (by norm_num) (by norm_num) (by norm_num) (by norm_num))
  refine List.Chain.cons ⟨by norm_num, ?_⟩ ?_
  · exact (F32.step_far_up hD h0 (by norm_num)).trans
      (f32_eval (-2) (-11072963) (1 / 33554432) (by norm_num) (by norm_num) (by norm_num) (by norm_num))
  refine List.Chain.cons ⟨by norm_num, ?_⟩ ?_
  · exact (F32.step_far_up hD h0 (by norm_num)).trans
      (f32_eval (-2) (-10737419) (1 / 33554432) (by norm_num) (by norm_num) (by norm_num) (by norm_num))
  refine List.Chain.cons ⟨by norm_num, ?_⟩ ?_
  · exact (F32.step_far_up hD h0 (by norm_num)).trans
      (f32_eval (-2) (-10401875) (1 / 33554432) (by norm_num) (by norm_num) (by norm_num) (by norm_num))
  refine List.Chain.cons ⟨by norm_num, ?_⟩ ?_
  · exact (F32.step_far_up hD h0 (by norm_num)).trans
      (f32_eval (-2) (-10066331) (1 / 33554432) (by norm_num) (by norm_num) (by norm_num) (by norm_num))
  refine List.Chain.cons ⟨by norm_num, ?_⟩ ?_
  · exact (F32.step_far_up hD h0 (by norm_num)).trans
      (f32_eval (-2) (-9730787) (1 / 33554432) (by norm_num) (by norm_num) (by norm_num) (by norm_num))
  refine List.Chain.cons ⟨by norm_num, ?_⟩ ?_
  · exact (F32.step_far_up hD h0 (by norm_num)).trans
      (f32_eval (-2) (-9395243) (1 / 33554432) (by norm_num) (by norm_num) (by norm_num) (by norm_num))
  refine List.Chain.cons ⟨by norm_num, ?_⟩ ?_
  · exact (F32.step_far_up hD h0 (by norm_num)).trans
      (f32_eval (-2) (-9059699) (1 / 33554432) (by norm_num) (by norm_num) (by norm_num) (by norm_num))
  refine List.Chain.cons ⟨by norm_num, ?_⟩ ?_
  · exact (F32.step_far_up hD h0 (by norm_num)).trans
      (f32_eval (-2) (-8724155) (1 / 33554432) (by norm_num) (by norm_num) (by norm_num) (by norm_num))
  refine List.Chain.cons ⟨by norm_num, ?_⟩ ?_
  · exact (F32.step_far_up hD h0 (by norm_num)).trans
      (f32_eval (-2) (-8388611) (1 / 33554432) (by norm_num) (by norm_num) (by norm_num) (by norm_num))
  refine List.Chain.cons ⟨by norm_num, ?_⟩ ?_
  · exact (F32.step_far_up hD h0 (by norm_num)).trans
      (f32_eval (-3) (-16106133) (1 / 67108864) (by norm_num) (by norm_num) (by norm_num) (by norm_num))
  refine List.Chain.cons ⟨by norm_num, ?_⟩ ?_
  · exact (F32.step_far_up hD h0 (by norm_num)).trans
      (f32_eval (-3) (-15435044) (1 / 67108864) (by norm_num) (by norm_num) (by norm_num) (by norm_num))
  refine List.Chain.cons ⟨by norm_num, ?_⟩ ?_
  · exact (F32.step_far_up hD h0 (by norm_num)).trans
      (f32_eval (-3) (-14763955) (1 / 67108864) (by norm_num) (by norm_num) (by norm_num) (by norm_num))
  refine List.Chain.cons ⟨by norm_num, ?_⟩ ?_
  · exact (F32.step_far_up hD h0 (by norm_num)).trans
      (f32_eval (-3) (-14092866) (1 / 67108864) (by norm_num) (by norm_num) (by norm_num) (by norm_num))
  refine List.Chain.cons ⟨by norm_num, ?_⟩ ?_
  · exact (F32.step_far_up hD h0 (by norm_num)).trans
      (f32_eval (-3) (-13421777) (1 / 67108864) (by norm_num) (by norm_num) (by norm_num) (by norm_num))
  refine List.Chain.cons ⟨by norm_num, ?_⟩ ?_
  · exact (F32.step_far_up hD h0 (by norm_num)).trans
      (f32_eval (-3) (-12750688) (1 / 67108864) (by norm_num) (by norm_num) (by norm_num) (by norm_num))
  refine List.Chain.cons ⟨by norm_num, ?_⟩ ?_
  · exact (F32.step_far_up hD h0 (by norm_num)).trans
      (f32_eval (-3) (-12079599) (1 / 67108864) (by norm_num) (by norm_num) (by norm_num) (by norm_num))
  refine List.Chain.cons ⟨by norm_num, ?_⟩ ?_
  · exact (F32.step_far_up hD h0 (by norm_num)).trans
      (f32_eval (-3) (-11408510) (1 / 67108864) (by norm_num) (by norm_num) (by norm_num) (by norm_num))
  refine List.Chain.cons ⟨by norm_num, ?_⟩ ?_
  · exact (F32.step_far_up hD h0 (by norm_num)).trans
      (f32_eval (-3) (-10737421) (1 / 67108864) (by norm_num) (by norm_num) (by norm_num) (by norm_num))
  refine List.Chain.cons ⟨by norm_num, ?_⟩ ?_
  · exact (F32.step_far_up hD h0 (by norm_num)).trans
      (f32_eval (-3) (-10066332) (1 / 67108864) (by norm_num) (by norm_num) (by norm_num) (by norm_num))
  refine List.Chain.cons ⟨by norm_num, ?_⟩ ?_
  · exact (F32.step_far_up hD h0 (by norm_num)).trans
      (f32_eval (-3) (-9395243) (1 / 67108864) (by norm_num) (by norm_num) (by norm_num) (by norm_num))
  refine List.Chain.cons ⟨by norm_num, ?_⟩ ?_
  · exact (F32.step_far_up hD h0 (by norm_num)).trans
      (f32_eval (-3) (-8724154) (1 / 67108864) (by norm_num) (by norm_num) (by norm_num) (by norm_num))
  refine List.Chain.cons ⟨by norm_num, ?_⟩ ?_
  · exact (F32.step_far_up hD h0 (by norm_num)).trans
      (f32_eval (-4) (-16106131) (1 / 134217728) (by norm_num) (by norm_num) (by norm_num) (by norm_num))
  refine List.Chain.cons ⟨by norm_num, ?_⟩ ?_
  · exact (F32.step_far_up hD h0 (by norm_num)).trans
      (f32_eval (-4) (-14763954) (1 / 134217728) (by norm_num) (by norm_num) (by norm_num) (by norm_num))
  refine List.Chain.cons ⟨by norm_num, ?_⟩ ?_
  · exact (F32.step_far_up hD h0 (by norm_num)).trans
      (f32_eval (-4) (-13421777) (1 / 134217728) (by norm_num) (by norm_num) (by norm_num) (by norm_num))
  refine List.Chain.cons ⟨by norm_num, ?_⟩ ?_
  · exact (F32.step_far_up hD h0 (by norm_num)).trans
      (f32_eval (-4) (-12079600) (1 / 134217728) (by norm_num) (by norm_num) (by norm_num) (by norm_num))
  refine List.Chain.cons ⟨by norm_num, ?_⟩ ?_
  · exact (F32.step_far_up hD h0 (by norm_num)).trans
      (f32_eval (-4) (-10737423) (1 / 134217728) (by norm_num) (by norm_num) (by norm_num) (by norm_num))
  refine List.Chain.cons ⟨by norm_num, ?_⟩ ?_
  · exact (F32.step_far_up hD h0 (by norm_num)).trans
      (f32_eval (-4) (-9395246) (1 / 134217728) (by norm_num) (by norm_num) (by norm_num) (by norm_num))
  refine List.Chain.cons ⟨by norm_num, ?_⟩ ?_
  · exact (F32.step_far_up hD h0 (by norm_num)).trans
      (f32_eval (-5) (-16106138) (1 / 268435456) (by norm_num) (by norm_num) (by norm_num) (by norm_num))
  refine List.Chain.cons ⟨by norm_num, ?_⟩ ?_
  · exact (F32.step_far_up hD h0 (by norm_num)).trans
      (f32_eval (-5) (-13421784) (1 / 268435456) (by norm_num) (by norm_num) (by norm_num) (by norm_num))
  refine List.Chain.cons ⟨by norm_num, ?_⟩ ?_
  · exact (F32.step_far_up hD h0 (by norm_num)).trans
      (f32_eval (-5) (-10737430) (1 / 268435456) (by norm_num) (by norm_num) (by norm_num) (by norm_num))
  refine List.Chain.cons ⟨by norm_num, ?_⟩ ?_
  · exact (F32.step_far_up hD h0 (by norm_num)).trans
      (f32_eval (-6) (-16106151) (1 / 536870912) (by norm_num) (by norm_num) (by norm_num) (by norm_num))
  refine List.Chain.cons ⟨by norm_num, ?_⟩ ?_
  · exact (F32.step_far_up hD h0 (by norm_num)).trans
      (f32_eval (-6) (-10737442) (1 / 536870912) (by norm_num) (by norm_num) (by norm_num) (by norm_num))
  refine List.Chain.cons ⟨by norm_num, ?_⟩ ?_
  · exact (F32.step_far_up hD h0 (by norm_num)).trans
      (f32_eval (-7) (-10737466) (1 / 1073741824) (by norm_num) (by norm_num) (by norm_num) (by norm_num))
  refine List.Chain.cons ⟨by norm_num, ?_⟩ ?_
  · exact (F32.step_far_up hD h0 (by norm_num)).trans
      (f32_eval (-25) (-12582912) (1 / 281474976710656) (by norm_num) (by norm_num) (by norm_num) (by norm_num))
  refine List.Chain.cons ⟨by norm_num, ?_⟩ ?_
  · exact (F32.step_far_up hD h0 (by norm_num)).trans
      (f32_eval (-7) 10737370 (1 / 1073741824) (by norm_num) (by norm_num) (by norm_num) (by norm_num))
  refine List.Chain.cons ⟨by norm_num, ?_⟩ ?_
  · exact (F32.step_far_up hD h0 (by norm_num)).trans
      (f32_eval (-6) 10737394 (1 / 536870912) (by norm_num) (by norm_num) (by norm_num) (by norm_num))
  refine List.Chain.cons ⟨by norm_num, ?_⟩ ?_
  · exact (F32.step_far_up hD h0 (by norm_num)).trans
      (f32_eval (-6) 16106103 (1 / 536870912) (by norm_num) (by norm_num) (by norm_num) (by norm_num))
  refine List.Chain.cons ⟨by norm_num, ?_⟩ ?_
  · exact (F32.step_far_up hD h0 (by norm_num)).trans
      (f32_eval (-5) 10737406 (1 / 268435456) (by norm_num) (by norm_num) (by norm_num) (by norm_num))
  refine List.Chain.cons ⟨by norm_num, ?_⟩ ?_
  · exact (F32.step_far_up hD h0 (by norm_num)).trans
      (f32_eval (-5) 13421760 (1 / 268435456) (by norm_num) (by norm_num) (by norm_num) (by norm_num))
  refine List.Chain.cons ⟨by norm_num, ?_⟩ ?_
  · exact (F32.step_far_up hD h0 (by norm_num)).trans
      (f32_eval (-5) 16106114 (1 / 268435456) (by norm_num) (by norm_num) (by norm_num) (by norm_num))
  refine List.Chain.cons ⟨by norm_num, ?_⟩ ?_
  · exact (F32.step_far_up hD h0 (by norm_num)).trans
      (f32_eval (-4) 9395234 (1 / 134217728) (by norm_num) (by norm_num) (by norm_num) (by norm_num))
  refine List.Chain.cons ⟨by norm_num, ?_⟩ ?_
  · exact (F32.step_far_up hD h0 (by norm_num)).trans
      (f32_eval (-4) 10737411 (1 / 134217728) (by norm_num) (by norm_num) (by norm_num) (by norm_num))
  refine List.Chain.cons ⟨by norm_num, ?_⟩ ?_
  · exact (F32.step_far_up hD h0 (by norm_num)).trans
      (f32_eval (-4) 12079588 (1 / 134217728) (by norm_num) (by norm_num) (by norm_num) (by norm_num))
  refine List.Chain.cons ⟨by norm_num, ?_⟩ ?_
  · exact (F32.step_far_up hD h0 (by norm_num)).trans
      (f32_eval (-4) 13421765 (1 / 134217728) (by norm_num) (by norm_num) (by norm_num) (by norm_num))
  refine List.Chain.cons ⟨by norm_num, ?_⟩ ?_
  · exact (F32.step_far_up hD h0 (by norm_num)).trans
      (f32_eval (-4) 14763942 (1 / 134217728) (by norm_num) (by norm_num) (by norm_num) (by norm_num))
  refine List.Chain.cons ⟨by norm_num, ?_⟩ ?_
  · exact (F32.step_far_up hD h0 (by norm_num)).trans
      (f32_eval (-4) 16106119 (1 / 134217728) (by norm_num) (by norm_num) (by norm_num) (by norm_num))
  refine List.Chain.cons ⟨by norm_num, ?_⟩ ?_
  · exact (F32.step_far_up hD h0 (by norm_num)).trans
      (f32_eval (-3) 8724148 (1 / 67108864) (by norm_num) (by norm_num) (by norm_num) (by norm_num))
  refine List.Chain.cons ⟨by norm_num, ?_⟩ ?_
  · exact (F32.step_far_up hD h0 (by norm_num)).trans
      (f32_eval (-3) 9395237 (1 / 67108864) (by norm_num) (by norm_num) (by norm_num) (by norm_num))
  refine List.Chain.cons ⟨by norm_num, ?_⟩ ?_
  · exact (F32.step_far_up hD h0 (by norm_num)).trans
      (f32_eval (-3) 10066326 (1 / 67108864) (by norm_num) (by norm_num) (by norm_num) (by norm_num))
  refine List.Chain.cons ⟨by norm_num, ?_⟩ ?_
  · exact (F32.step_far_up hD h0 (by norm_num)).trans
      (f32_eval (-3) 10737415 (1 / 67108864) (by norm_num) (by norm_num) (by norm_num) (by norm_num))
  refine List.Chain.cons ⟨by norm_num, ?_⟩ ?_
  · exact (F32.step_far_up hD h0 (by norm_num)).trans
      (f32_eval (-3) 11408504 (1 / 67108864) (by norm_num) (by norm_num) (by norm_num) (by norm_num))
  refine List.Chain.cons ⟨by norm_num, ?_⟩ ?_
  · exact (F32.step_far_up hD h0 (by norm_num)).trans
      (f32_eval (-3) 12079593 (1 / 67108864) (by norm_num) (by norm_num) (by norm_num) (by norm_num))
  refine List.Chain.cons ⟨by norm_num, ?_⟩ ?_
  · exact (F32.step_far_up hD h0 (by norm_num)).trans
      (f32_eval (-3) 12750682 (1 / 67108864) (by norm_num) (by norm_num) (by norm_num) (by norm_num))
  refine List.Chain.cons ⟨by norm_num, ?_⟩ ?_
  · exact (F32.step_far_up hD h0 (by norm_num)).trans
      (f32_eval (-3) 13421771 (1 / 67108864) (by norm_num) (by norm_num) (by norm_num) (by norm_num))
  refine List.Chain.cons ⟨by norm_num, ?_⟩ ?_
  · exact F32.step_near_eval (1 / 33554432)
      (f32_eval (-25) 8388608 (1 / 281474976710656) (by norm_num) (by norm_num) (by norm_num) (by norm_num))
      (by norm_num)
      (f32_eval (-3) 13421773 (1 / 67108864) (by norm_num) (by norm_num) (by norm_num) (by norm_num))
  exact List.Chain.nil

set_option maxHeartbeats 4000000 in
/-- The single-precision run of table position 16: start, then the value after each of the 12 cycles. -/
theorem crank16_chain :
    List.Chain (fun x y : ℚ => x ≠ (9395241 / 67108864) ∧ F32.step x (9395241 / 67108864) (5368709 / 536870912) = y) (16106127 / 536870912)
      [5368709 / 134217728,
      3355443 / 67108864,
      8053063 / 134217728,
      1174405 / 16777216,
      10737417 / 134217728,
      6039797 / 67108864,
      13421771 / 134217728,
      3690987 / 33554432,
      16106125 / 134217728,
      8724151 / 67108864,
      1174405 / 8388608,
      9395241 / 67108864] := by
  have hD : f32 (5368709 / 536870912) = (5368709 / 536870912) :=
    f32_eval (-7) 10737418 (1 / 1073741824) (by norm_num) (by norm_num) (by norm_num) (by norm_num)
  have h0 : (0 : ℚ) ≤ (5368709 / 536870912) := by norm_num
  refine List.Chain.cons ⟨by norm_num, ?_⟩ ?_
  · exact (F32.step_far_up hD h0 (by norm_num)).trans
      (f32_eval (-5) 10737418 (1 / 268435456) (by norm_num) (by norm_num) (by norm_num) (by norm_num))
  refine List.Chain.cons ⟨by norm_num, ?_⟩ ?_
  · exact (F32.step_far_up hD h0 (by norm_num)).trans
      (f32_eval (-5) 13421772 (1 / 268435456) (by norm_num) (by norm_num) (by norm_num) (by norm_num))
  refine List.Chain.cons ⟨by norm_num, ?_⟩ ?_
  · exact (F32.step_far_up hD h0 (by norm_num)).trans
      (f32_eval (-5) 16106126 (1 / 268435456) (by norm_num) (by norm_num) (by norm_num) (by norm_num))
  refine List.Chain.cons ⟨by norm_num, ?_⟩ ?_
  · exact (F32.step_far_up hD h0 (by norm_num)).trans
      (f32_eval (-4) 9395240 (1 / 134217728) (by norm_num) (by norm_num) (by norm_num) (by norm_num))
  refine List.Chain.cons ⟨by norm_num, ?_⟩ ?_
  · exact (F32.step_far_up hD h0 (by norm_num)).trans
      (f32_eval (-4) 10737417 (1 / 134217728) (by norm_num) (by norm_num) (by norm_num) (by norm_num))
  refine List.Chain.cons ⟨by norm_num, ?_⟩ ?_
  · exact (F32.step_far_up hD h0 (by norm_num)).trans
      (f32_eval (-4) 12079594 (1 / 134217728) (by norm_num) (by norm_num) (by norm_num) (by norm_num))
  refine List.Chain.cons ⟨by norm_num, ?_⟩ ?_
  · exact (F32.step_far_up hD h0 (by norm_num)).trans
      (f32_eval (-4) 13421771 (1 / 134217728) (by norm_num) (by norm_num) (by norm_num) (by norm_num))
  refine List.Chain.cons ⟨by norm_num, ?_⟩ ?_
  · exact (F32.step_far_up hD h0 (by norm_num)).trans
      (f32_eval (-4) 14763948 (1 / 134217728) (by norm_num) (by norm_num) (by norm_num) (by norm_num))
  refine List.Chain.cons ⟨by norm_num, ?_⟩ ?_
  · exact (F32.step_far_up hD h0 (by norm_num)).trans
      (f32_eval (-4) 16106125 (1 / 134217728) (by norm_num) (by norm_num) (by norm_num) (by norm_num))
  refine List.Chain.cons ⟨by norm_num, ?_⟩ ?_
  · exact (F32.step_far_up hD h0 (by norm_num)).trans
      (f32_eval (-3) 8724151 (1 / 67108864) (by norm_num) (by norm_num) (by norm_num) (by norm_num))
  refine List.Chain.cons ⟨by norm_num, ?_⟩ ?_
  · exact (F32.step_far_up hD h0 (by norm_num)).trans
      (f32_eval (-3) 9395240 (1 / 67108864) (by norm_num) (by norm_num) (by norm_num) (by norm_num))
  refine List.Chain.cons ⟨by norm_num, ?_⟩ ?_
  · exact F32.step_near_eval (1 / 67108864)
      (f32_eval (-26) 8388608 (1 / 562949953421312) (by norm_num) (by norm_num) (by norm_num) (by norm_num))
      (by norm_num)
      (f32_eval (-3) 9395241 (1 / 67108864) (by norm_num) (by norm_num) (by norm_num) (by norm_num))
  exact List.Chain.nil

set_option maxHeartbeats 4000000 in
/-- The single-precision run of table position 22: start, then the value after each of the 18 cycles. -/
theorem crank22_chain :
    List.Chain (fun x y : ℚ => x ≠ (9395241 / 67108864) ∧ F32.step x (9395241 / 67108864) (5368709 / 536870912) = y) (-16106127 / 536870912)
      [-5368709 / 268435456,
      -5368709 / 536870912,
      0,
      5368709 / 536870912,
      5368709 / 268435456,
      16106127 / 536870912,
      5368709 / 134217728,
      3355443 / 67108864,
      8053063 / 134217728,
      1174405 / 16777216,
      10737417 / 134217728,
      6039797 / 67108864,
      13421771 / 134217728,
      3690987 / 33554432,
      16106125 / 134217728,
      8724151 / 67108864,
      1174405 / 8388608,
      9395241 / 67108864] := by
  have hD : f32 (5368709 / 536870912) = (5368709 / 536870912) :=
    f32_eval (-7) 10737418 (1 / 1073741824) (by norm_num) (by norm_num) (by norm_num) (by norm_num)
  have h0 : (0 : ℚ) ≤ (5368709 / 536870912) := by norm_num
  refine List.Chain.cons ⟨by norm_num, ?_⟩ ?_
  · exact (F32.step_far_up hD h0 (by norm_num)).trans
      (f32_eval (-6) (-10737418) (1 / 536870912) (by norm_num) (by norm_num) (by norm_num) (by norm_num))
  refine List.Chain.cons ⟨by norm_num, ?_⟩ ?_
  · exact (F32.step_far_up hD h0 (by norm_num)).trans
      (f32_eval (-7) (-10737418) (1 / 1073741824) (by norm_num) (by norm_num) (by norm_num) (by norm_num))
  refine List.Chain.cons ⟨by norm_num, ?_⟩ ?_
  · exact (F32.step_far_up hD h0 (by norm_num)).trans
      (f32_eq_zero (by norm_num))
  refine List.Chain.cons ⟨by norm_num, ?_⟩ ?_
  · exact (F32.step_far_up hD h0 (by norm_num)).trans
      (f32_eval (-7) 10737418 (1 / 1073741824) (by norm_num) (by norm_num) (by norm_num) (by norm_num))
  refine List.Chain.cons ⟨by norm_num, ?_⟩ ?_
  · exact (F32.step_far_up hD h0 (by norm_num)).trans
      (f32_eval (-6) 10737418 (1 / 536870912) (by norm_num) (by norm_num) (by norm_num) (by norm_num))
  refine List.Chain.cons ⟨by norm_num, ?_⟩ ?_
  · exact (F32.step_far_up hD h0 (by norm_num)).trans
      (f32_eval (-6) 16106127 (1 / 536870912) (by norm_num) (by norm_num) (by norm_num) (by norm_num))
  refine List.Chain.cons ⟨by norm_num, ?_⟩ ?_
  · exact (F32.step_far_up hD h0 (by norm_num)).trans
      (f32_eval (-5) 10737418 (1 / 268435456) (by norm_num) (by norm_num) (by norm_num) (by norm_num))
  refine List.Chain.cons ⟨by norm_num, ?_⟩ ?_
  · exact (F32.step_far_up hD h0 (by norm_num)).trans
      (f32_eval (-5) 13421772 (1 / 268435456) (by norm_num) (by norm_num) (by norm_num) (by norm_num))
  refine List.Chain.cons ⟨by norm_num, ?_⟩ ?_
  · exact (F32.step_far_up hD h0 (by norm_num)).trans
      (f32_eval (-5) 16106126 (1 / 268435456) (by norm_num) (by norm_num) (by norm_num) (by norm_num))
  refine List.Chain.cons ⟨by norm_num, ?_⟩ ?_
  · exact (F32.step_far_up hD h0 (by norm_num)).trans
      (f32_eval (-4) 9395240 (1 / 134217728) (by norm_num) (by norm_num) (by norm_num) (by norm_num))
  refine List.Chain.cons ⟨by norm_num, ?_⟩ ?_
  · exact (F32.step_far_up hD h0 (by norm_num)).trans
      (f32_eval (-4) 10737417 (1 / 134217728) (by norm_num) (by norm_num) (by norm_num) (by norm_num))
  refine List.Chain.cons ⟨by norm_num, ?_⟩ ?_
  · exact (F32.step_far_up hD h0 (by norm_num)).trans
      (f32_eval (-4) 12079594 (1 / 134217728) (by norm_num) (by norm_num) (by norm_num) (by norm_num))
  refine List.Chain.cons ⟨by norm_num, ?_⟩ ?_
  · exact (F32.step_far_up hD h0 (by norm_num)).trans
      (f32_eval (-4) 13421771 (1 / 134217728) (by norm_num) (by norm_num) (by norm_num) (by norm_num))
  refine List.Chain.cons ⟨by norm_num, ?_⟩ ?_
  · exact (F32.step_far_up hD h0 (by norm_num)).trans
      (f32_eval (-4) 14763948 (1 / 134217728) (by norm_num) (by norm_num) (by norm_num) (by norm_num))
  refine List.Chain.cons ⟨by norm_num, ?_⟩ ?_
  · exact (F32.step_far_up hD h0 (by norm_num)).trans
      (f32_eval (-4) 16106125 (1 / 134217728) (by norm_num) (by norm_num) (by norm_num) (by norm_num))
  refine List.Chain.cons ⟨by norm_num, ?_⟩ ?_
  · exact (F32.step_far_up hD h0 (by norm_num)).trans
      (f32_eval (-3) 8724151 (1 / 67108864) (by norm_num) (by norm_num) (by norm_num) (by norm_num))
  refine List.Chain.cons ⟨by norm_num, ?_⟩ ?_
  · exact (F32.step_far_up hD h0 (by norm_num)).trans
      (f32_eval (-3) 9395240 (1 / 67108864) (by norm_num) (by norm_num) (by norm_num) (by norm_num))
  refine List.Chain.cons ⟨by norm_num, ?_⟩ ?_
  · exact F32.step_near_eval (1 / 67108864)
      (f32_eval (-26) 8388608 (1 / 562949953421312) (by norm_num) (by norm_num) (by norm_num) (by norm_num))
      (by norm_num)
      (f32_eval (-3) 9395241 (1 / 67108864) (by norm_num) (by norm_num) (by norm_num) (by norm_num))
  exact List.Chain.nil

set_option maxHeartbeats 4000000 in
/-- The single-precision run of a joint from 0.0 to the target 0.10: start, then the value after each of the 11 cycles. -/
theorem example_chain :
    List.Chain (fun x y : ℚ => x ≠ (13421773 / 134217728) ∧ F32.step x (13421773 / 134217728) (5368709 / 536870912) = y) 0
      [5368709 / 536870912,
      5368709 / 268435456,
      16106127 / 536870912,
      5368709 / 134217728,
      3355443 / 67108864,
      8053063 / 134217728,
      1174405 / 16777216,
      10737417 / 134217728,
      6039797 / 67108864,
      13421771 / 134217728,
      13421773 / 134217728] := by
  have hD : f32 (5368709 / 536870912) = (5368709 / 536870912) :=
    f32_eval (-7) 10737418 (1 / 1073741824) (by norm_num) (by norm_num) (by norm_num) (by norm_num)
  have h0 : (0 : ℚ) ≤ (5368709 / 536870912) := by norm_num
  refine List.Chain.cons ⟨by norm_num, ?_⟩ ?_
  · exact (F32.step_far_up hD h0 (by norm_num)).trans
      (f32_eval (-7) 10737418 (1 / 1073741824) (by norm_num) (by norm_num) (by norm_num) (by norm_num))
  refine List.Chain.cons ⟨by norm_num, ?_⟩ ?_
  · exact (F32.step_far_up hD h0 (by norm_num)).trans
      (f32_eval (-6) 10737418 (1 / 536870912) (by norm_num) (by norm_num) (by norm_num) (by norm_num))
  refine List.Chain.cons ⟨by norm_num, ?_⟩ ?_
  · exact (F32.step_far_up hD h0 (by norm_num)).trans
      (f32_eval (-6) 16106127 (1 / 536870912) (by norm_num) (by norm_num) (by norm_num) (by norm_num))
  refine List.Chain.cons ⟨by norm_num, ?_⟩ ?_
  · exact (F32.step_far_up hD h0 (by norm_num)).trans
      (f32_eval (-5) 10737418 (1 / 268435456) (by norm_num) (by norm_num) (by norm_num) (by norm_num))
  refine List.Chain.cons ⟨by norm_num, ?_⟩ ?_
  · exact (F32.step_far_up hD h0 (by norm_num)).trans
      (f32_eval (-5) 13421772 (1 / 268435456) (by norm_num) (by norm_num) (by norm_num) (by norm_num))
  refine List.Chain.cons ⟨by norm_num, ?_⟩ ?_
  · exact (F32.step_far_up hD h0 (by norm_num)).trans
      (f32_eval (-5) 16106126 (1 / 268435456) (by norm_num) (by norm_num) (by norm_num) (by norm_num))
  refine List.Chain.cons ⟨by norm_num, ?_⟩ ?_
  · exact (F32.step_far_up hD h0 (by norm_num)).trans
      (f32_eval (-4) 9395240 (1 / 134217728) (by norm_num) (by norm_num) (by norm_num) (by norm_num))
  refine List.Chain.cons ⟨by norm_num, ?_⟩ ?_
  · exact (F32.step_far_up hD h0 (by norm_num)).trans
      (f32_eval (-4) 10737417 (1 / 134217728) (by norm_num) (by norm_num) (by norm_num) (by norm_num))
  refine List.Chain.cons ⟨by norm_num, ?_⟩ ?_
  · exact (F32.step_far_up hD h0 (by norm_num)).trans
      (f32_eval (-4) 12079594 (1 / 134217728) (by norm_num) (by norm_num) (by norm_num) (by norm_num))
  refine List.Chain.cons ⟨by norm_num, ?_⟩ ?_
  · exact (F32.step_far_up hD h0 (by norm_num)).trans
      (f32_eval (-4) 13421771 (1 / 134217728) (by norm_num) (by norm_num) (by norm_num) (by norm_num))
  refine List.Chain.cons ⟨by norm_num, ?_⟩ ?_
  · exact F32.step_near_eval (1 / 67108864)
      (f32_eval (-26) 8388608 (1 / 562949953421312) (by norm_num) (by norm_num) (by norm_num) (by norm_num))
      (by norm_num)
      (f32_eval (-4) 13421773 (1 / 134217728) (by norm_num) (by norm_num) (by norm_num) (by norm_num))
  exact List.Chain.nil

theorem F32.max_joint_velocity_eq :
    F32.max_joint_velocity = 1 / 2 :=
  by
  unfold F32.max_joint_velocity B1LowSdk.max_joint_velocity
  exact f32_eval (-1) 8388608 (1 / 16777216) (by norm_num) (by norm_num) (by norm_num) (by norm_num)

theorem F32.control_dt_eq :
    F32.control_dt = 5368709 / 268435456 :=
  f32_control_dt

theorem F32.weight_rate_eq :
    F32.weight_rate = 13421773 / 67108864 :=
  by
  unfold F32.weight_rate B1LowSdk.weight_rate
  exact f32_eval (-3) 13421773 (1 / 67108864) (by norm_num) (by norm_num) (by norm_num) (by norm_num)

/-- The product `0.5f * 0.02f` in single precision: 0.0099999998, the `float` nearest to 0.01. -/
theorem F32.max_joint_delta_eq :
    F32.max_joint_delta = 5368709 / 536870912 :=
  by
  unfold F32.max_joint_delta
  rw [F32.max_joint_velocity_eq, F32.control_dt_eq]
  exact f32_eval (-7) 10737418 (1 / 1073741824) (by norm_num) (by norm_num) (by norm_num) (by norm_num)

/-- The product `0.2f * 0.02f` in single precision: 0.00400000019. -/
theorem F32.weight_margin_val :
    F32.weight_margin = 8589935 / 2147483648 :=
  by
  unfold F32.weight_margin
  rw [F32.weight_rate_eq, F32.control_dt_eq]
  exact f32_eval (-8) 8589935 (1 / 2147483648) (by norm_num) (by norm_num) (by norm_num) (by norm_num)

theorem F32.stop_time_steps_val :
    F32.stop_time_steps = 100 :=
  by
  have h₁ : f32 stop_time = 2 := by
    unfold stop_time
    exact f32_eval 1 8388608 (1 / 4194304) (by norm_num) (by norm_num) (by norm_num) (by norm_num)
  have h₂ : f32 (2 / (5368709 / 268435456)) = ((100 : ℤ) : ℚ) :=
    f32_eval 6 13107200 (1 / 131072) (by norm_num) (by norm_num) (by norm_num) (by norm_num)
  unfold F32.stop_time_steps
  rw [h₁, F32.control_dt_eq, h₂, toInt_intCast]

theorem f32_max_joint_delta :
    f32 (5368709 / 536870912) = 5368709 / 536870912 :=
  f32_eval (-7) 10737418 (1 / 1073741824) (by norm_num) (by norm_num) (by norm_num) (by norm_num)

theorem F32.current_jpos_des_15 :
    F32.current_jpos_des 15 = -11744051 / 33554432 :=
  by
  have h₁ : f64 (-0.35) = -3152519739159347 / 9007199254740992 :=
    f64_eval (-2) (-6305039478318694) (1 / 18014398509481984) (by norm_num) (by norm_num) (by norm_num) (by norm_num)
  have h₂ : f32 (-3152519739159347 / 9007199254740992) = -11744051 / 33554432 :=
    f32_eval (-2) (-11744051) (1 / 33554432) (by norm_num) (by norm_num) (by norm_num) (by norm_num)
  show f32 (f64 (B1LowSdk.current_jpos_des 15)) = _
  rw [crank_values.1.1, h₁, h₂]

theorem F32.target_pos_15 :
    F32.target_pos 15 = 13421773 / 67108864 :=
  by
  have h₁ : f64 (0.2) = 3602879701896397 / 18014398509481984 :=
    f64_eval (-3) 7205759403792794 (1 / 36028797018963968) (by norm_num) (by norm_num) (by norm_num) (by norm_num)
  have h₂ : f32 (3602879701896397 / 18014398509481984) = 13421773 / 67108864 :=
    f32_eval (-3) 13421773 (1 / 67108864) (by norm_num) (by norm_num) (by norm_num) (by norm_num)
  show f32 (f64 (B1LowSdk.target_pos 15)) = _
  rw [crank_values.1.2, h₁, h₂]

theorem F32.current_jpos_des_16 :
    F32.current_jpos_des 16 = 16106127 / 536870912 :=
  by
  have h₁ : f64 (0.03) = 1080863910568919 / 36028797018963968 :=
    f64_eval (-6) 8646911284551352 (1 / 288230376151711744) (by norm_num) (by norm_num) (by norm_num) (by norm_num)
  have h₂ : f32 (1080863910568919 / 36028797018963968) = 16106127 / 536870912 :=
    f32_eval (-6) 16106127 (1 / 536870912) (by norm_num) (by norm_num) (by norm_num) (by norm_num)
  show f32 (f64 (B1LowSdk.current_jpos_des 16)) = _
  rw [crank_values.2.1.1, h₁, h₂]

theorem F32.target_pos_16 :
    F32.target_pos 16 = 9395241 / 67108864 :=
  by
  have h₁ : f64 (0.14) = 1261007895663739 / 9007199254740992 :=
    f64_eval (-3) 5044031582654956 (1 / 36028797018963968) (by norm_num) (by norm_num) (by norm_num) (by norm_num)
  have h₂ : f32 (1261007895663739 / 9007199254740992) = 9395241 / 67108864 :=
    f32_eval (-3) 9395241 (1 / 67108864) (by norm_num) (by norm_num) (by norm_num) (by norm_num)
  show f32 (f64 (B1LowSdk.target_pos 16)) = _
  rw [crank_values.2.1.2, h₁, h₂]

theorem F32.current_jpos_des_21 :
    F32.current_jpos_des 21 = -11744051 / 33554432 :=
  by
  have h₁ : f64 (-0.35) = -3152519739159347 / 9007199254740992 :=
    f64_eval (-2) (-6305039478318694) (1 / 18014398509481984) (by norm_num) (by norm_num) (by norm_num) (by norm_num)
  have h₂ : f32 (-3152519739159347 / 9007199254740992) = -11744051 / 33554432 :=
    f32_eval (-2) (-11744051) (1 / 33554432) (by norm_num) (by norm_num) (by norm_num) (by norm_num)
  show f32 (f64 (B1LowSdk.current_jpos_des 21)) = _
  rw [crank_values.2.2.1.1, h₁, h₂]

theorem F32.target_pos_21 :
    F32.target_pos 21 = 13421773 / 67108864 :=
  by
  have h₁ : f64 (0.2) = 3602879701896397 / 18014398509481984 :=
    f64_eval (-3) 7205759403792794 (1 / 36028797018963968) (by norm_num) (by norm_num) (by norm_num) (by norm_num)
  have h₂ : f32 (3602879701896397 / 18014398509481984) = 13421773 / 67108864 :=
    f32_eval (-3) 13421773 (1 / 67108864) (by norm_num) (by norm_num) (by norm_num) (by norm_num)
  show f32 (f64 (B1LowSdk.target_pos 21)) = _
  rw [crank_values.2.2.1.2, h₁, h₂]

theorem F32.current_jpos_des_22 :
    F32.current_jpos_des 22 = -16106127 / 536870912 :=
  by
  have h₁ : f64 (-0.03) = -1080863910568919 / 36028797018963968 :=
    f64_eval (-6) (-8646911284551352) (1 / 288230376151711744) (by norm_num) (by norm_num) (by norm_num) (by norm_num)
  have h₂ : f32 (-1080863910568919 / 36028797018963968) = -16106127 / 536870912 :=
    f32_eval (-6) (-16106127) (1 / 536870912) (by norm_num) (by norm_num) (by norm_num) (by norm_num)
  show f32 (f64 (B1LowSdk.current_jpos_des 22)) = _
  rw [crank_values.2.2.2.1, h₁, h₂]

theorem F32.target_pos_22 :
    F32.target_pos 22 = 9395241 / 67108864 :=
  by
  have h₁ : f64 (0.14) = 1261007895663739 / 9007199254740992 :=
    f64_eval (-3) 5044031582654956 (1 / 36028797018963968) (by norm_num) (by norm_num) (by norm_num) (by norm_num)
  have h₂ : f32 (1261007895663739 / 9007199254740992) = 9395241 / 67108864 :=
    f32_eval (-3) 9395241 (1 / 67108864) (by norm_num) (by norm_num) (by norm_num) (by norm_num)
  show f32 (f64 (B1LowSdk.target_pos 22)) = _
  rw [crank_values.2.2.2.2, h₁, h₂]

theorem f32_example_target :
    f32 (f64 0.10) = 13421773 / 134217728 :=
  by
  have h₁ : f64 0.10 = 3602879701896397 / 36028797018963968 :=
    f64_eval (-4) 7205759403792794 (1 / 72057594037927936) (by norm_num) (by norm_num) (by norm_num) (by norm_num)
  rw [h₁]
  exact f32_eval (-4) 13421773 (1 / 134217728) (by norm_num) (by norm_num) (by norm_num) (by norm_num)

/-- From 16777216 toward 16777218 with bound 1: the sum 16777217 is halfway between two `float` values and rounds back to 16777216. -/
theorem F32.step_big :
    F32.step 16777216 16777218 1 = 16777216 :=
  by
  have hd : f32 1 = 1 :=
    f32_eval 0 8388608 (1 / 8388608) (by norm_num) (by norm_num) (by norm_num) (by norm_num)
  rw [F32.step_far_up hd (by norm_num) (by norm_num)]
  exact f32_eval 24 8388608 2 (by norm_num) (by norm_num) (by norm_num) (by norm_num)

theorem f32_big :
    f32 16777216 = 16777216 ∧ f32 16777218 = 16777218 ∧ f32 1 = 1 :=
  ⟨f32_eval 24 8388608 2 (by norm_num) (by norm_num) (by norm_num) (by norm_num),
    f32_eval 24 8388609 2 (by norm_num) (by norm_num) (by norm_num) (by norm_num),
    f32_eval 0 8388608 (1 / 8388608) (by norm_num) (by norm_num) (by norm_num) (by norm_num)⟩

theorem f32_small_target :
    f32 1e-9 = 9007199 / 9007199254740992 ∧ f32 (9007199 / 9007199254740992) = 9007199 / 9007199254740992 :=
  ⟨f32_eval (-30) 9007199 (1 / 9007199254740992) (by norm_num) (by norm_num) (by norm_num) (by norm_num),
    f32_eval (-30) 9007199 (1 / 9007199254740992) (by norm_num) (by norm_num) (by norm_num) (by norm_num)⟩

/-- From 0.0099999998 toward the target 1e-9f with bound 0.0099999998: the rounded difference leads to 2^-30, below the target. -/
theorem F32.step_small :
    F32.step (5368709 / 536870912) (9007199 / 9007199254740992) (5368709 / 536870912) = 1 / 1073741824 :=
  F32.step_near_eval (-10737417 / 1073741824)
    (f32_eval (-7) (-10737417) (1 / 1073741824) (by norm_num) (by norm_num) (by norm_num) (by norm_num))
    (by norm_num)
    (f32_eval (-30) 8388608 (1 / 9007199254740992) (by norm_num) (by norm_num) (by norm_num) (by norm_num))

theorem f32_one_sub_weight_margin :
    f32 (1 - 8589935 / 2147483648) = 16710107 / 16777216 :=
  f32_eval (-1) 16710107 (1 / 16777216) (by norm_num) (by norm_num) (by norm_num) (by norm_num)

theorem f32_crank15_start :
    f32 (-11744051 / 33554432) = -11744051 / 33554432 :=
  f32_eval (-2) (-11744051) (1 / 33554432) (by norm_num) (by norm_num) (by norm_num) (by norm_num)

theorem f32_crank15_target :
    f32 (13421773 / 67108864) = 13421773 / 67108864 :=
  f32_eval (-3) 13421773 (1 / 67108864) (by norm_num) (by norm_num) (by norm_num) (by norm_num)

/-! ## The program's run in single precision -/

theorem F32.max_joint_delta_pos : 0 < F32.max_joint_delta := by
  rw [F32.max_joint_delta_eq]
  norm_num

theorem F32.max_joint_delta_isFloat : f32 F32.max_joint_delta = F32.max_joint_delta :=
  f32_f32 _

theorem F32.f32_target_pos (j : Fin 23) : f32 (F32.target_pos j) = F32.target_pos j :=
  f32_f32 _

theorem F32.f32_current_jpos_des (j : Fin 23) :
    f32 (F32.current_jpos_des j) = F32.current_jpos_des j :=
  f32_f32 _

/-- Outside table positions 15, 16, 21 and 22 the stored start pose equals
the stored target pose. -/
theorem F32.stored_start_eq_target (j : Fin 23) (h15 : j ≠ 15) (h16 : j ≠ 16)
    (h21 : j ≠ 21) (h22 : j ≠ 22) : F32.current_jpos_des j = F32.target_pos j := by
  show f32 (f64 (B1LowSdk.current_jpos_des j)) = f32 (f64 (B1LowSdk.target_pos j))
  rw [B1LowSdk.current_jpos_des_eq_target_pos j h15 h16 h21 h22]

/-- A joint that is at its target stays there. -/
theorem F32.jposAfter_of_eq (cur target : Fin 23 → ℚ) (d : ℚ) (hd : 0 ≤ d) (j : Fin 23)
    (ht : f32 (target j) = target j) (he : cur j = target j) (n : ℕ) :
    F32.jposAfter n cur target d j = target j := by
  rw [F32.jposAfter_iterate, he]
  exact Function.iterate_fixed (f := fun x => F32.step x (target j) d) (F32.step_self ht hd) n

/-- The run of a crank entry of the program, from its chain of values. -/
theorem F32.crank_run (j : Fin 23) (c t : ℚ) (l : List ℚ)
    (hc : F32.current_jpos_des j = c) (ht : F32.target_pos j = t)
    (h : List.Chain (fun x y : ℚ => x ≠ t ∧ F32.step x t (5368709 / 536870912) = y) c l)
    (n : ℕ) (hn : n ≤ l.length) :
    (c :: l)[n]?
        = some (F32.jposAfter n F32.current_jpos_des F32.target_pos F32.max_joint_delta j)
      ∧ (n < l.length →
          F32.jposAfter n F32.current_jpos_des F32.target_pos F32.max_joint_delta j
            ≠ F32.target_pos j) := by
  rw [F32.jposAfter_iterate, F32.max_joint_delta_eq, hc, ht]
  exact iterate_of_chain (fun x => F32.step x t (5368709 / 536870912)) t l c h n hn

/-- A crank entry whose chain of values ends at the target after `k`
cycles is at the target after every later cycle. -/
theorem F32.crank_holds (j : Fin 23) (k : ℕ)
    (hk : F32.jposAfter k F32.current_jpos_des F32.target_pos F32.max_joint_delta j
      = F32.target_pos j) (n : ℕ) (hn : k ≤ n) :
    F32.jposAfter n F32.current_jpos_des F32.target_pos F32.max_joint_delta j
      = F32.target_pos j := by
  rw [F32.jposAfter_iterate] at hk ⊢
  exact iterate_eq_of_fixed _ hk
    (F32.step_self (F32.f32_target_pos j) F32.max_joint_delta_pos.le) n hn

theorem F32.crank15_reached :
    F32.jposAfter 56 F32.current_jpos_des F32.target_pos F32.max_joint_delta 15
      = F32.target_pos 15 := by
  have h := (F32.crank_run 15 _ _ _ F32.current_jpos_des_15 F32.target_pos_15 crank15_chain
    56 le_rfl).1
  rw [F32.target_pos_15]
  exact (Option.some.inj h).symm

theorem F32.crank21_reached :
    F32.jposAfter 56 F32.current_jpos_des F32.target_pos F32.max_joint_delta 21
      = F32.target_pos 21 := by
  have h := (F32.crank_run 21 _ _ _ F32.current_jpos_des_21 F32.target_pos_21 crank15_chain
    56 le_rfl).1
  rw [F32.target_pos_21]
  exact (Option.some.inj h).symm

theorem F32.crank16_reached :
    F32.jposAfter 12 F32.current_jpos_des F32.target_pos F32.max_joint_delta 16
      = F32.target_pos 16 := by
  have h := (F32.crank_run 16 _ _ _ F32.current_jpos_des_16 F32.target_pos_16 crank16_chain
    12 le_rfl).1
  rw [F32.target_pos_16]
  exact (Option.some.inj h).symm

theorem F32.crank22_reached :
    F32.jposAfter 18 F32.current_jpos_des F32.target_pos F32.max_joint_delta 22
      = F32.target_pos 22 := by
  have h := (F32.crank_run 22 _ _ _ F32.current_jpos_des_22 F32.target_pos_22 crank22_chain
    18 le_rfl).1
  rw [F32.target_pos_22]
  exact (Option.some.inj h).symm

/-- Each crank entry moves in the first cycle. -/
theorem F32.crank_moves (j : Fin 23) (hj : j = 15 ∨ j = 16 ∨ j = 21 ∨ j = 22) :
    F32.jposAfter 1 F32.current_jpos_des F32.target_pos F32.max_joint_delta j
      ≠ F32.current_jpos_des j := by
  rcases hj with h | h | h | h
  · have h₁ := (F32.crank_run 15 _ _ _ F32.current_jpos_des_15 F32.target_pos_15 crank15_chain
      1 (by norm_num)).1
    rw [h, F32.current_jpos_des_15, ← Option.some.inj h₁]
    norm_num
  · have h₁ := (F32.crank_run 16 _ _ _ F32.current_jpos_des_16 F32.target_pos_16 crank16_chain
      1 (by norm_num)).1
    rw [h, F32.current_jpos_des_16, ← Option.some.inj h₁]
    norm_num
  · have h₁ := (F32.crank_run 21 _ _ _ F32.current_jpos_des_21 F32.target_pos_21 crank15_chain
      1 (by norm_num)).1
    rw [h, F32.current_jpos_des_21, ← Option.some.inj h₁]
    norm_num
  · have h₁ := (F32.crank_run 22 _ _ _ F32.current_jpos_des_22 F32.target_pos_22 crank22_chain
      1 (by norm_num)).1
    rw [h, F32.current_jpos_des_22, ← Option.some.inj h₁]
    norm_num

/-- The whole pose of the program equals `target_pos` from cycle 56 on. -/
theorem F32.pose_reached (n : ℕ) (hn : 56 ≤ n) :
    F32.jposAfter n F32.current_jpos_des F32.target_pos F32.max_joint_delta
      = F32.target_pos := by
  funext j
  by_cases h15 : j = 15
  · rw [h15]
    exact F32.crank_holds 15 56 F32.crank15_reached n hn
  by_cases h16 : j = 16
  · rw [h16]
    exact F32.crank_holds 16 12 F32.crank16_reached n (le_trans (by norm_num) hn)
  by_cases h21 : j = 21
  · rw [h21]
    exact F32.crank_holds 21 56 F32.crank21_reached n hn
  by_cases h22 : j = 22
  · rw [h22]
    exact F32.crank_holds 22 18 F32.crank22_reached n (le_trans (by norm_num) hn)
  exact F32.jposAfter_of_eq _ _ _ F32.max_joint_delta_pos.le j (F32.f32_target_pos j)
    (F32.stored_start_eq_target j h15 h16 h21 h22) n

/-! ## The ramp in single precision: the claims -/

/-- C1, as stated, fails for the program itself: in single precision
`max_joint_delta = 0.5f * 0.02f` is 5368709/2^29 (0.0099999998); table
position 15 is at -8388611/2^25 after cycle 10 and at -16106133/2^26 after
cycle 11, a displacement of 671089/2^26 (0.0100000054), which is more than
`max_joint_delta`. -/
theorem lift_velocity_bound_exceeded :
    0 ≤ F32.max_joint_delta
      ∧ F32.max_joint_delta = 5368709 / 536870912
      ∧ F32.jposAfter 10 F32.current_jpos_des F32.target_pos F32.max_joint_delta 15
          = -8388611 / 33554432
      ∧ F32.jposAfter 11 F32.current_jpos_des F32.target_pos F32.max_joint_delta 15
          = -16106133 / 67108864
      ∧ ¬ |F32.jposAfter 11 F32.current_jpos_des F32.target_pos F32.max_joint_delta 15
            - F32.jposAfter 10 F32.current_jpos_des F32.target_pos F32.max_joint_delta 15|
          ≤ F32.max_joint_delta := by
  have h10 := Option.some.inj (F32.crank_run 15 _ _ _ F32.current_jpos_des_15
    F32.target_pos_15 crank15_chain 10 (by norm_num)).1
  have h11 := Option.some.inj (F32.crank_run 15 _ _ _ F32.current_jpos_des_15
    F32.target_pos_15 crank15_chain 11 (by norm_num)).1
  refine ⟨F32.max_joint_delta_pos.le, F32.max_joint_delta_eq, h10.symm, h11.symm, ?_⟩
  rw [← h10, ← h11, F32.max_joint_delta_eq]
  norm_num [abs_of_pos]

/-- C1, amended. In every cycle of the lift loop, for every joint, start
pose and target, with `max_joint_delta = max_joint_velocity * control_dt ≥ 0`
computed in `float`: the new commanded position is the `float` nearest to the
old position plus an increment of magnitude at most `max_joint_delta`, so it
differs from the old position by at most
`max_joint_delta + (|old| + max_joint_delta) / 2^24`. -/
theorem lift_velocity_bound_rounded (v dt : ℚ) (h : 0 ≤ f32 (v * dt))
    (cur0 target : Fin 23 → ℚ) (i : ℕ) (j : Fin 23) :
    (∃ δ : ℚ, |δ| ≤ f32 (v * dt)
        ∧ F32.jposAfter (i + 1) cur0 target (f32 (v * dt)) j
          = f32 (F32.jposAfter i cur0 target (f32 (v * dt)) j + δ))
      ∧ |F32.jposAfter (i + 1) cur0 target (f32 (v * dt)) j
            - F32.jposAfter i cur0 target (f32 (v * dt)) j|
          ≤ f32 (v * dt)
            + (|F32.jposAfter i cur0 target (f32 (v * dt)) j| + f32 (v * dt)) / 16777216 := by
  rw [F32.jposAfter_succ_apply]
  exact ⟨⟨_, abs_clamp_le h, rfl⟩, F32.abs_step_sub_le _ _ _ h⟩

/-- C1 amended, at the program's constants and tables: table position 15,
cycle 11. -/
theorem lift_velocity_bound_rounded_witness :
    (∃ δ : ℚ, |δ| ≤ f32 (F32.max_joint_velocity * F32.control_dt)
        ∧ F32.jposAfter (10 + 1) F32.current_jpos_des F32.target_pos
            (f32 (F32.max_joint_velocity * F32.control_dt)) 15
          = f32 (F32.jposAfter 10 F32.current_jpos_des F32.target_pos
              (f32 (F32.max_joint_velocity * F32.control_dt)) 15 + δ))
      ∧ |F32.jposAfter (10 + 1) F32.current_jpos_des F32.target_pos
              (f32 (F32.max_joint_velocity * F32.control_dt)) 15
            - F32.jposAfter 10 F32.current_jpos_des F32.target_pos
              (f32 (F32.max_joint_velocity * F32.control_dt)) 15|
          ≤ f32 (F32.max_joint_velocity * F32.control_dt)
            + (|F32.jposAfter 10 F32.current_jpos_des F32.target_pos
                  (f32 (F32.max_joint_velocity * F32.control_dt)) 15|
                + f32 (F32.max_joint_velocity * F32.control_dt)) / 16777216 :=
  lift_velocity_bound_rounded F32.max_joint_velocity F32.control_dt
    F32.max_joint_delta_pos.le F32.current_jpos_des F32.target_pos 10 15

/-- C2, as stated, fails: from the `float` 16777216 toward the `float`
target 16777218 with `maxDelta = 1`, the bound `ceil(|target - cur0| /
maxDelta)` is 2, but every step returns 16777216 (the sum 16777217 rounds
back), so the target is never reached. -/
theorem limiter_never_converges :
    (f32 16777216 = 16777216 ∧ f32 16777218 = 16777218 ∧ f32 1 = 1)
      ∧ (0 : ℚ) < 1
      ∧ ⌈|(16777218 : ℚ) - 16777216| / 1⌉₊ = 2
      ∧ ∀ n : ℕ, (fun x => F32.step x 16777218 1)^[n] 16777216 = 16777216
          ∧ (fun x => F32.step x 16777218 1)^[n] 16777216 ≠ 16777218 := by
  have hfix : ∀ n : ℕ, (fun x => F32.step x 16777218 1)^[n] 16777216 = 16777216 := fun n =>
    Function.iterate_fixed (f := fun x => F32.step x 16777218 1) F32.step_big n
  refine ⟨f32_big, by norm_num, ?_, fun n => ⟨hfix n, ?_⟩⟩
  · have h : |(16777218 : ℚ) - 16777216| / 1 = ((2 : ℕ) : ℚ) := by
      norm_num [abs_of_pos]
    rw [h, Nat.ceil_natCast]
  · rw [hfix n]
    norm_num

/-- C2, amended. Once the commanded position equals a `float` target it
equals it after every further step (any `maxDelta ≥ 0`); and for the
program's own start pose, targets and `max_joint_delta`, every joint `j`
equals its target after any number `n ≥ ceil(|target - cur0| / maxDelta)` of
cycles of the lift loop. -/
theorem program_converges (t d : ℚ) (ht : f32 t = t) (hd : 0 ≤ d) (j : Fin 23) (n : ℕ)
    (hn : ⌈|F32.target_pos j - F32.current_jpos_des j| / F32.max_joint_delta⌉₊ ≤ n) :
    (fun x => F32.step x t d)^[n] t = t
      ∧ F32.jposAfter n F32.current_jpos_des F32.target_pos F32.max_joint_delta j
          = F32.target_pos j := by
  refine ⟨Function.iterate_fixed (f := fun x => F32.step x t d) (F32.step_self ht hd) n, ?_⟩
  have hlt : ∀ (c u : ℚ) (k : ℕ), (k : ℚ) < |u - c| / (5368709 / 536870912) →
      F32.current_jpos_des j = c → F32.target_pos j = u → k + 1 ≤ n := by
    intro c u k hk hc hu
    rw [hc, hu, F32.max_joint_delta_eq] at hn
    exact Nat.succ_le_of_lt (lt_of_lt_of_le (Nat.lt_ceil.mpr hk) hn)
  by_cases h15 : j = 15
  · subst h15
    exact F32.crank_holds 15 56 F32.crank15_reached n
      (hlt _ _ 55 (by norm_num [abs_of_pos]) F32.current_jpos_des_15 F32.target_pos_15)
  by_cases h16 : j = 16
  · subst h16
    exact F32.crank_holds 16 12 F32.crank16_reached n
      (hlt _ _ 11 (by norm_num [abs_of_pos]) F32.current_jpos_des_16 F32.target_pos_16)
  by_cases h21 : j = 21
  · subst h21
    exact F32.crank_holds 21 56 F32.crank21_reached n
      (hlt _ _ 55 (by norm_num [abs_of_pos]) F32.current_jpos_des_21 F32.target_pos_21)
  by_cases h22 : j = 22
  · subst h22
    exact F32.crank_holds 22 18 F32.crank22_reached n
      (hlt _ _ 17 (by norm_num [abs_of_pos]) F32.current_jpos_des_22 F32.target_pos_22)
  exact F32.jposAfter_of_eq _ _ _ F32.max_joint_delta_pos.le j (F32.f32_target_pos j)
    (F32.stored_start_eq_target j h15 h16 h21 h22) n

/-- C2 amended, at table position 15 (bound 56) after 56 cycles, with the
stored target of that joint as `t`. -/
theorem program_converges_witness :
    (fun x => F32.step x (F32.target_pos 15) F32.max_joint_delta)^[56] (F32.target_pos 15)
        = F32.target_pos 15
      ∧ F32.jposAfter 56 F32.current_jpos_des F32.target_pos F32.max_joint_delta 15
          = F32.target_pos 15 :=
  program_converges (F32.target_pos 15) F32.max_joint_delta (F32.f32_target_pos 15)
    F32.max_joint_delta_pos.le 15 56
    (by
      rw [F32.current_jpos_des_15, F32.target_pos_15, F32.max_joint_delta_eq]
      exact Nat.ceil_le.mpr (by norm_num [abs_of_pos]))

/-- C3, as stated, fails: from the `float` 5368709/2^29 (0.0099999998)
toward the `float` target 9007199/2^53 (1e-9f) with `maxDelta` 5368709/2^29,
one step returns 2^-30 (9.31e-10), which is below the target although the
step started above it: the value is not between `cur` and `target`. -/
theorem step_passes_target :
    (f32 (5368709 / 536870912) = 5368709 / 536870912
        ∧ f32 1e-9 = 9007199 / 9007199254740992
        ∧ f32 (9007199 / 9007199254740992) = 9007199 / 9007199254740992)
      ∧ (0 : ℚ) ≤ 5368709 / 536870912
      ∧ F32.step (5368709 / 536870912) (9007199 / 9007199254740992) (5368709 / 536870912)
          = 1 / 1073741824
      ∧ ¬ (min (5368709 / 536870912 : ℚ) (9007199 / 9007199254740992)
            ≤ F32.step (5368709 / 536870912) (9007199 / 9007199254740992)
                (5368709 / 536870912)
          ∧ F32.step (5368709 / 536870912) (9007199 / 9007199254740992)
                (5368709 / 536870912)
            ≤ max (5368709 / 536870912 : ℚ) (9007199 / 9007199254740992)) := by
  refine ⟨⟨f32_max_joint_delta, f32_small_target.1, f32_small_target.2⟩, by norm_num,
    F32.step_small, ?_⟩
  rw [F32.step_small, min_eq_right (by norm_num)]
  intro h
  norm_num at h

/-- The values of the lift loop are `float` values when the start pose is. -/
theorem F32.f32_jposAfter (cur0 target : Fin 23 → ℚ) (d : ℚ)
    (hc : ∀ j, f32 (cur0 j) = cur0 j) (n : ℕ) (j : Fin 23) :
    f32 (F32.jposAfter n cur0 target d j) = F32.jposAfter n cur0 target d j := by
  cases n with
  | zero => exact hc j
  | succ k =>
    rw [F32.jposAfter_succ_apply]
    exact f32_f32 _

/-- One step from at least `d` away stays between `cur` and `target`. -/
theorem F32.step_far_between {c t d : ℚ} (hc : f32 c = c) (ht : f32 t = t) (hd : f32 d = d)
    (h0 : 0 ≤ d) :
    (d ≤ t - c → c ≤ F32.step c t d ∧ F32.step c t d ≤ t)
      ∧ (t - c ≤ -d → t ≤ F32.step c t d ∧ F32.step c t d ≤ c) := by
  constructor
  · intro h
    rw [F32.step_far_up hd h0 h]
    have h₁ := f32_mono (show c ≤ c + d by linarith)
    have h₂ := f32_mono (show c + d ≤ t by linarith)
    rw [hc] at h₁
    rw [ht] at h₂
    exact ⟨h₁, h₂⟩
  · intro h
    rw [F32.step_far_down hd h0 h]
    have h₁ := f32_mono (show t ≤ c - d by linarith)
    have h₂ := f32_mono (show c - d ≤ c by linarith)
    rw [ht] at h₁
    rw [hc] at h₂
    exact ⟨h₁, h₂⟩

/-- C3, amended. For `float` values `cur`, `target` and `maxDelta ≥ 0`:
while the joint is at least `maxDelta` away from its target, one limiter
step lies between `cur` and `target` (inclusive), so it moves toward the
target and does not pass it, and so does every cycle of the lift loop for
such a joint; within `maxDelta` of the target the step returns
`f32(cur + f32(target - cur))`, which differs from the target by at most
`(|target - cur| + |cur + f32(target - cur)|) / 2^24` and may pass it by
that much. -/
theorem step_no_overshoot_rounded (cur target d : ℚ) (hc : f32 cur = cur)
    (ht : f32 target = target) (hd : f32 d = d) (h0 : 0 ≤ d)
    (cur0 tgt : Fin 23 → ℚ) (hc0 : ∀ j, f32 (cur0 j) = cur0 j) (ht0 : ∀ j, f32 (tgt j) = tgt j)
    (i : ℕ) (j : Fin 23) :
    (d ≤ target - cur → cur ≤ F32.step cur target d ∧ F32.step cur target d ≤ target)
      ∧ (target - cur ≤ -d → target ≤ F32.step cur target d ∧ F32.step cur target d ≤ cur)
      ∧ (|target - cur| ≤ d →
          F32.step cur target d = f32 (cur + f32 (target - cur))
            ∧ |F32.step cur target d - target|
                ≤ (|target - cur| + |cur + f32 (target - cur)|) / 16777216)
      ∧ (d ≤ tgt j - F32.jposAfter i cur0 tgt d j →
          F32.jposAfter i cur0 tgt d j ≤ F32.jposAfter (i + 1) cur0 tgt d j
            ∧ F32.jposAfter (i + 1) cur0 tgt d j ≤ tgt j)
      ∧ (tgt j - F32.jposAfter i cur0 tgt d j ≤ -d →
          tgt j ≤ F32.jposAfter (i + 1) cur0 tgt d j
            ∧ F32.jposAfter (i + 1) cur0 tgt d j ≤ F32.jposAfter i cur0 tgt d j) := by
  have hfar := F32.step_far_between hc ht hd h0
  have hloop := F32.step_far_between (F32.f32_jposAfter cur0 tgt d hc0 i j) (ht0 j) hd h0
  rw [F32.jposAfter_succ_apply]
  refine ⟨hfar.1, hfar.2, fun hnear => ?_, hloop.1, hloop.2⟩
  have hb := abs_le.mp hnear
  have hup := f32_mono hb.2
  have hlo := f32_mono hb.1
  rw [hd] at hup
  rw [f32_neg, hd] at hlo
  have hstep := F32.step_near (abs_le.mpr ⟨hlo, hup⟩)
  refine ⟨hstep, ?_⟩
  have e₁ := abs_f32_sub_le (cur + f32 (target - cur))
  have e₂ := abs_f32_sub_le (target - cur)
  have hsplit : F32.step cur target d - target
      = (f32 (cur + f32 (target - cur)) - (cur + f32 (target - cur)))
        + (f32 (target - cur) - (target - cur)) := by
    rw [hstep]
    ring
  rw [hsplit, add_div]
  calc _ ≤ |f32 (cur + f32 (target - cur)) - (cur + f32 (target - cur))|
          + |f32 (target - cur) - (target - cur)| := abs_add _ _
    _ ≤ |target - cur| / 16777216 + |cur + f32 (target - cur)| / 16777216 := by
        linarith

/-- C3 amended, at the program's tables: table position 15 at its start
value and in the fourth cycle. -/
theorem step_no_overshoot_rounded_witness :
    ((5368709 / 536870912 : ℚ) ≤ 13421773 / 67108864 - -11744051 / 33554432 →
        (-11744051 / 33554432 : ℚ)
            ≤ F32.step (-11744051 / 33554432) (13421773 / 67108864) (5368709 / 536870912)
          ∧ F32.step (-11744051 / 33554432) (13421773 / 67108864) (5368709 / 536870912)
            ≤ 13421773 / 67108864)
      ∧ ((13421773 / 67108864 : ℚ) - -11744051 / 33554432 ≤ -(5368709 / 536870912) →
        (13421773 / 67108864 : ℚ)
            ≤ F32.step (-11744051 / 33554432) (13421773 / 67108864) (5368709 / 536870912)
          ∧ F32.step (-11744051 / 33554432) (13421773 / 67108864) (5368709 / 536870912)
            ≤ -11744051 / 33554432)
      ∧ (|(13421773 / 67108864 : ℚ) - -11744051 / 33554432| ≤ 5368709 / 536870912 →
          F32.step (-11744051 / 33554432) (13421773 / 67108864) (5368709 / 536870912)
              = f32 (-11744051 / 33554432 + f32 (13421773 / 67108864 - -11744051 / 33554432))
            ∧ |F32.step (-11744051 / 33554432) (13421773 / 67108864) (5368709 / 536870912)
                  - 13421773 / 67108864|
                ≤ (|(13421773 / 67108864 : ℚ) - -11744051 / 33554432|
                    + |-11744051 / 33554432
                        + f32 (13421773 / 67108864 - -11744051 / 33554432)|) / 16777216)
      ∧ ((5368709 / 536870912 : ℚ) ≤ F32.target_pos 15
            - F32.jposAfter 3 F32.current_jpos_des F32.target_pos (5368709 / 536870912) 15 →
          F32.jposAfter 3 F32.current_jpos_des F32.target_pos (5368709 / 536870912) 15
              ≤ F32.jposAfter (3 + 1) F32.current_jpos_des F32.target_pos
                  (5368709 / 536870912) 15
            ∧ F32.jposAfter (3 + 1) F32.current_jpos_des F32.target_pos
                  (5368709 / 536870912) 15 ≤ F32.target_pos 15)
      ∧ (F32.target_pos 15
            - F32.jposAfter 3 F32.current_jpos_des F32.target_pos (5368709 / 536870912) 15
            ≤ -(5368709 / 536870912) →
          F32.target_pos 15
              ≤ F32.jposAfter (3 + 1) F32.current_jpos_des F32.target_pos
                  (5368709 / 536870912) 15
            ∧ F32.jposAfter (3 + 1) F32.current_jpos_des F32.target_pos
                  (5368709 / 536870912) 15
              ≤ F32.jposAfter 3 F32.current_jpos_des F32.target_pos
                  (5368709 / 536870912) 15) :=
  step_no_overshoot_rounded (-11744051 / 33554432) (13421773 / 67108864)
    (5368709 / 536870912) f32_crank15_start f32_crank15_target f32_max_joint_delta
    (by norm_num) F32.current_jpos_des F32.target_pos F32.f32_current_jpos_des
    F32.f32_target_pos 3 15

/-- C5, amended. Velocity bound of one step in `float`, for `maxDelta ≥ 0`:
the increment `clamp(f32(target - cur), -maxDelta, +maxDelta)` has magnitude
at most `maxDelta`, and magnitude `maxDelta` only when the rounded
difference `|f32(target - cur)|` is at least `maxDelta`; the value returned
is the `float` nearest to `cur` plus that increment, so
`|step(cur, target, maxDelta) - cur| ≤ maxDelta + (|cur| + maxDelta) / 2^24`. -/
theorem step_displacement_bound_rounded (cur target d : ℚ) (hd : 0 ≤ d) :
    F32.step cur target d = f32 (cur + clamp (f32 (target - cur)) (-d) d)
      ∧ |clamp (f32 (target - cur)) (-d) d| ≤ d
      ∧ (|clamp (f32 (target - cur)) (-d) d| = d → d ≤ |f32 (target - cur)|)
      ∧ |F32.step cur target d - cur| ≤ d + (|cur| + d) / 16777216 := by
  refine ⟨rfl, abs_clamp_le hd, fun h => ?_, F32.abs_step_sub_le cur target d hd⟩
  rcases lt_or_le (f32 (target - cur)) (-d) with hlt | hge
  · exact le_trans (by linarith) (neg_le_abs _)
  · rcases lt_or_le d (f32 (target - cur)) with hlt | hle
    · exact le_trans hlt.le (le_abs_self _)
    · rw [clamp_of_le hge hle] at h
      exact h.ge

/-- C5 amended, at the program's constants: table position 15 after cycle
10. -/
theorem step_displacement_bound_rounded_witness :
    F32.step (-8388611 / 33554432) (13421773 / 67108864) (5368709 / 536870912)
        = f32 (-8388611 / 33554432
            + clamp (f32 (13421773 / 67108864 - -8388611 / 33554432))
                (-(5368709 / 536870912)) (5368709 / 536870912))
      ∧ |clamp (f32 (13421773 / 67108864 - -8388611 / 33554432))
            (-(5368709 / 536870912)) (5368709 / 536870912)| ≤ 5368709 / 536870912
      ∧ (|clamp (f32 (13421773 / 67108864 - -8388611 / 33554432))
            (-(5368709 / 536870912)) (5368709 / 536870912)| = 5368709 / 536870912 →
          (5368709 / 536870912 : ℚ) ≤ |f32 (13421773 / 67108864 - -8388611 / 33554432)|)
      ∧ |F32.step (-8388611 / 33554432) (13421773 / 67108864) (5368709 / 536870912)
            - -8388611 / 33554432|
          ≤ 5368709 / 536870912 + (|(-8388611 / 33554432 : ℚ)| + 5368709 / 536870912) / 16777216 :=
  step_displacement_bound_rounded (-8388611 / 33554432) (13421773 / 67108864)
    (5368709 / 536870912) (by norm_num)

/-- C6, as stated, fails in two ways.  From the `float` 16777216 toward
16777218 with `maxDelta = 1` the distance 2 exceeds `maxDelta`, yet the step
returns 16777216: the displacement is 0, not `maxDelta`.  From the `float`
5368709/2^29 toward the target 9007199/2^53 (1e-9f) with `maxDelta`
5368709/2^29 the distance is at most `maxDelta`, yet the step returns 2^-30
and not the target. -/
theorem step_characterisation_fails :
    ((0 : ℚ) ≤ 1 ∧ (1 : ℚ) < |16777218 - 16777216|
        ∧ F32.step 16777216 16777218 1 = 16777216
        ∧ ¬ |F32.step 16777216 16777218 1 - 16777216| = 1)
      ∧ ((0 : ℚ) ≤ 5368709 / 536870912
        ∧ |(9007199 / 9007199254740992 : ℚ) - 5368709 / 536870912| ≤ 5368709 / 536870912
        ∧ F32.step (5368709 / 536870912) (9007199 / 9007199254740992) (5368709 / 536870912)
            = 1 / 1073741824
        ∧ F32.step (5368709 / 536870912) (9007199 / 9007199254740992) (5368709 / 536870912)
            ≠ 9007199 / 9007199254740992) := by
  refine ⟨⟨by norm_num, by norm_num [abs_of_pos], F32.step_big, ?_⟩,
    ⟨by norm_num, ?_, F32.step_small, ?_⟩⟩
  · rw [F32.step_big]
    norm_num
  · rw [abs_of_neg (by norm_num)]
    norm_num
  · rw [F32.step_small]
    norm_num

/-- C6, amended. Limiter step characterisation in `float`, for a `float`
`maxDelta ≥ 0`: the update that the lift loop applies to joint `j` is
`f32(cur + clamp(f32(target - cur), -maxDelta, +maxDelta))`; when the target
is at least `maxDelta` away it returns the `float` nearest to
`cur + maxDelta` (or `cur - maxDelta`), which need not be `maxDelta` away
from `cur`; when the rounded difference is within `maxDelta` it returns
`f32(cur + f32(target - cur))`, which is the target when `target - cur` is
itself a `float` value and `target` is. -/
theorem step_characterisation_rounded (cur target d : ℚ) (hd : f32 d = d) (h0 : 0 ≤ d)
    (pos tgt : Fin 23 → ℚ) (j : Fin 23) :
    F32.updateJposDes pos tgt d j
        = f32 (pos j + clamp (f32 (tgt j - pos j)) (-d) d)
      ∧ F32.step cur target d = f32 (cur + clamp (f32 (target - cur)) (-d) d)
      ∧ (d ≤ target - cur → F32.step cur target d = f32 (cur + d))
      ∧ (target - cur ≤ -d → F32.step cur target d = f32 (cur - d))
      ∧ (|f32 (target - cur)| ≤ d → F32.step cur target d = f32 (cur + f32 (target - cur)))
      ∧ (|target - cur| ≤ d → f32 (target - cur) = target - cur → f32 target = target →
          F32.step cur target d = target) := by
  refine ⟨F32.updateJposDes_joint pos tgt d j, rfl, F32.step_far_up hd h0,
    F32.step_far_down hd h0, F32.step_near, fun hnear hex ht => ?_⟩
  rw [F32.step_near (by rw [hex]; exact hnear), hex]
  have : cur + (target - cur) = target := by ring
  rw [this, ht]

/-- C6 amended, at the program's constants: table position 15, first
cycle. -/
theorem step_characterisation_rounded_witness :
    F32.updateJposDes F32.current_jpos_des F32.target_pos (5368709 / 536870912) 15
        = f32 (F32.current_jpos_des 15
            + clamp (f32 (F32.target_pos 15 - F32.current_jpos_des 15))
                (-(5368709 / 536870912)) (5368709 / 536870912))
      ∧ F32.step (-11744051 / 33554432) (13421773 / 67108864) (5368709 / 536870912)
          = f32 (-11744051 / 33554432
              + clamp (f32 (13421773 / 67108864 - -11744051 / 33554432))
                  (-(5368709 / 536870912)) (5368709 / 536870912))
      ∧ ((5368709 / 536870912 : ℚ) ≤ 13421773 / 67108864 - -11744051 / 33554432 →
          F32.step (-11744051 / 33554432) (13421773 / 67108864) (5368709 / 536870912)
            = f32 (-11744051 / 33554432 + 5368709 / 536870912))
      ∧ ((13421773 / 67108864 : ℚ) - -11744051 / 33554432 ≤ -(5368709 / 536870912) →
          F32.step (-11744051 / 33554432) (13421773 / 67108864) (5368709 / 536870912)
            = f32 (-11744051 / 33554432 - 5368709 / 536870912))
      ∧ (|f32 (13421773 / 67108864 - -11744051 / 33554432)| ≤ 5368709 / 536870912 →
          F32.step (-11744051 / 33554432) (13421773 / 67108864) (5368709 / 536870912)
            = f32 (-11744051 / 33554432 + f32 (13421773 / 67108864 - -11744051 / 33554432)))
      ∧ (|(13421773 / 67108864 : ℚ) - -11744051 / 33554432| ≤ 5368709 / 536870912 →
          f32 (13421773 / 67108864 - -11744051 / 33554432)
            = 13421773 / 67108864 - -11744051 / 33554432 →
          f32 (13421773 / 67108864) = 13421773 / 67108864 →
          F32.step (-11744051 / 33554432) (13421773 / 67108864) (5368709 / 536870912)
            = 13421773 / 67108864) :=
  step_characterisation_rounded (-11744051 / 33554432) (13421773 / 67108864)
    (5368709 / 536870912) f32_max_joint_delta (by norm_num) F32.current_jpos_des
    F32.target_pos 15

/-- The run of the worked example in single precision. -/
theorem example_run (n : ℕ) (hn : n ≤ 11) :
    ([0, 5368709 / 536870912,
          5368709 / 268435456,
          16106127 / 536870912,
          5368709 / 134217728,
          3355443 / 67108864,
          8053063 / 134217728,
          1174405 / 16777216,
          10737417 / 134217728,
          6039797 / 67108864,
          13421771 / 134217728,
          13421773 / 134217728] : List ℚ)[n]?
        = some ((fun x => F32.step x (f32 (f64 0.10)) F32.max_joint_delta)^[n] 0)
      ∧ (n < 11 →
          (fun x => F32.step x (f32 (f64 0.10)) F32.max_joint_delta)^[n] 0
            ≠ f32 (f64 0.10)) := by
  rw [f32_example_target, F32.max_joint_delta_eq]
  exact iterate_of_chain (fun x => F32.step x (13421773 / 134217728) (5368709 / 536870912))
    (13421773 / 134217728) _ 0 example_chain n hn

/-- C11, as stated, fails in single precision: `max_joint_delta =
0.5f * 0.02f` is 5368709/2^29, not 0.01; the target `0.10` is stored as
13421773/2^27; the fifth cycle advances the joint by 5368707/2^29, not by
0.01; and after cycle 10 the joint is at 13421771/2^27 (0.0999999866), not
at its target. -/
theorem worked_ramp_example_fails :
    F32.max_joint_delta ≠ 0.01
      ∧ f32 (f64 0.10) = 13421773 / 134217728
      ∧ (fun x => F32.step x (f32 (f64 0.10)) F32.max_joint_delta)^[5] 0
          - (fun x => F32.step x (f32 (f64 0.10)) F32.max_joint_delta)^[4] 0 ≠ 0.01
      ∧ (fun x => F32.step x (f32 (f64 0.10)) F32.max_joint_delta)^[10] 0
          = 13421771 / 134217728
      ∧ (fun x => F32.step x (f32 (f64 0.10)) F32.max_joint_delta)^[10] 0
          ≠ f32 (f64 0.10) := by
  have h4 := Option.some.inj (example_run 4 (by norm_num)).1
  have h5 := Option.some.inj (example_run 5 (by norm_num)).1
  have h10 := Option.some.inj (example_run 10 (by norm_num)).1
  refine ⟨?_, f32_example_target, ?_, h10.symm, (example_run 10 (by norm_num)).2 (by norm_num)⟩
  · rw [F32.max_joint_delta_eq]
    norm_num
  · rw [← h4, ← h5]
    norm_num

/-- C11, amended. Worked ramp example in single precision: with
`max_joint_velocity = 0.5f` and `control_dt = 0.02f` the bound
`max_joint_delta` is 5368709/2^29 (0.0099999998); a joint that starts at 0.0
with target `0.10` (stored as 13421773/2^27) has the listed positions after
cycles 0 to 11, each cycle advancing it by `max_joint_delta` up to 2^-27;
it differs from its target after each of the first 10 cycles, equals it
after cycle 11 and after every later cycle. -/
theorem worked_ramp_example_rounded :
    F32.max_joint_delta = 5368709 / 536870912
      ∧ (∀ n : ℕ, n ≤ 11 →
          ([0, 5368709 / 536870912,
          5368709 / 268435456,
          16106127 / 536870912,
          5368709 / 134217728,
          3355443 / 67108864,
          8053063 / 134217728,
          1174405 / 16777216,
          10737417 / 134217728,
          6039797 / 67108864,
          13421771 / 134217728,
          13421773 / 134217728] : List ℚ)[n]?
            = some ((fun x => F32.step x (f32 (f64 0.10)) F32.max_joint_delta)^[n] 0))
      ∧ (∀ k : ℕ, k < 10 →
          |(fun x => F32.step x (f32 (f64 0.10)) F32.max_joint_delta)^[k + 1] 0
              - (fun x => F32.step x (f32 (f64 0.10)) F32.max_joint_delta)^[k] 0
              - F32.max_joint_delta| ≤ 1 / 134217728)
      ∧ (∀ n : ℕ, n < 11 →
          (fun x => F32.step x (f32 (f64 0.10)) F32.max_joint_delta)^[n] 0 ≠ f32 (f64 0.10))
      ∧ (∀ n : ℕ, 11 ≤ n →
          (fun x => F32.step x (f32 (f64 0.10)) F32.max_joint_delta)^[n] 0 = f32 (f64 0.10)) := by
  have hreach : (fun x => F32.step x (f32 (f64 0.10)) F32.max_joint_delta)^[11] 0
      = f32 (f64 0.10) := by
    rw [← Option.some.inj (example_run 11 le_rfl).1, f32_example_target]
    rfl
  refine ⟨F32.max_joint_delta_eq, fun n hn => (example_run n hn).1, fun k hk => ?_,
    fun n hn => (example_run n hn.le).2 hn, fun n hn => ?_⟩
  · interval_cases k <;> simp only [Nat.reduceAdd]
    · rw [← Option.some.inj (example_run 1 (by norm_num)).1,
        ← Option.some.inj (example_run 0 (by norm_num)).1, F32.max_joint_delta_eq, abs_le]
      constructor <;> norm_num
    · rw [← Option.some.inj (example_run 2 (by norm_num)).1,
        ← Option.some.inj (example_run 1 (by norm_num)).1, F32.max_joint_delta_eq, abs_le]
      constructor <;> norm_num
    · rw [← Option.some.inj (example_run 3 (by norm_num)).1,
        ← Option.some.inj (example_run 2 (by norm_num)).1, F32.max_joint_delta_eq, abs_le]
      constructor <;> norm_num
    · rw [← Option.some.inj (example_run 4 (by norm_num)).1,
        ← Option.some.inj (example_run 3 (by norm_num)).1, F32.max_joint_delta_eq, abs_le]
      constructor <;> norm_num
    · rw [← Option.some.inj (example_run 5 (by norm_num)).1,
        ← Option.some.inj (example_run 4 (by norm_num)).1, F32.max_joint_delta_eq, abs_le]
      constructor <;> norm_num
    · rw [← Option.some.inj (example_run 6 (by norm_num)).1,
        ← Option.some.inj (example_run 5 (by norm_num)).1, F32.max_joint_delta_eq, abs_le]
      constructor <;> norm_num
    · rw [← Option.some.inj (example_run 7 (by norm_num)).1,
        ← Option.some.inj (example_run 6 (by norm_num)).1, F32.max_joint_delta_eq, abs_le]
      constructor <;> norm_num
    · rw [← Option.some.inj (example_run 8 (by norm_num)).1,
        ← Option.some.inj (example_run 7 (by norm_num)).1, F32.max_joint_delta_eq, abs_le]
      constructor <;> norm_num
    · rw [← Option.some.inj (example_run 9 (by norm_num)).1,
        ← Option.some.inj (example_run 8 (by norm_num)).1, F32.max_joint_delta_eq, abs_le]
      constructor <;> norm_num
    · rw [← Option.some.inj (example_run 10 (by norm_num)).1,
        ← Option.some.inj (example_run 9 (by norm_num)).1, F32.max_joint_delta_eq, abs_le]
      constructor <;> norm_num
  · exact iterate_eq_of_fixed _ hreach
      (F32.step_self (f32_f32 _) F32.max_joint_delta_pos.le) n hn

/-! ## The weight in single precision -/

/-- The function `std::clamp` does not increase distances. -/
theorem abs_clamp_sub_clamp_le (x y : ℚ) {lo hi : ℚ} (h : lo ≤ hi) :
    |clamp x lo hi - clamp y lo hi| ≤ |x - y| := by
  have h₁ := le_abs_self (x - y)
  have h₂ := neg_abs_le (x - y)
  unfold clamp
  split_ifs <;> rw [abs_le] <;> constructor <;> linarith

theorem F32.weightAfter_succ (margin : ℚ) (k : ℕ) (w : ℚ) :
    F32.weightAfter margin (k + 1) w = clamp (f32 (F32.weightAfter margin k w - margin)) 0 1 :=
  rfl

theorem F32.weightAfter_mem (margin w : ℚ) (h0 : 0 ≤ w) (h1 : w ≤ 1) (k : ℕ) :
    0 ≤ F32.weightAfter margin k w ∧ F32.weightAfter margin k w ≤ 1 := by
  cases k with
  | zero => exact ⟨h0, h1⟩
  | succ k =>
    rw [F32.weightAfter_succ]
    exact clamp_mem _ zero_le_one

/-- The rounded weight stays within `k / 2^24` of the exact ramp. -/
theorem F32.abs_weightAfter_sub_le (margin w : ℚ) (hm0 : 0 ≤ margin) (hm1 : margin ≤ 1)
    (h0 : 0 ≤ w) (h1 : w ≤ 1) (k : ℕ) :
    |F32.weightAfter margin k w - max 0 (w - margin * k)| ≤ k / 16777216 := by
  have hexact : ∀ i : ℕ, max 0 (w - margin * i)
      = (stopLoop margin i (initState (fun _ => 0) w)).weight := fun i =>
    (stopLoop_weight_eq margin hm0 (initState (fun _ => 0) w) h0 h1 i).symm
  induction k with
  | zero =>
    rw [hexact]
    show |w - w| ≤ _
    rw [sub_self, abs_zero]
    norm_num
  | succ k ih =>
    rw [hexact] at ih ⊢
    rw [F32.weightAfter_succ, stopLoop_weight_succ]
    have hu := F32.weightAfter_mem margin w h0 h1 k
    have herr := abs_f32_sub_le (F32.weightAfter margin k w - margin)
    have hbound : |F32.weightAfter margin k w - margin| ≤ 1 := by
      rw [abs_le]
      constructor <;> linarith [hu.1, hu.2]
    have hlip := abs_clamp_sub_clamp_le (f32 (F32.weightAfter margin k w - margin))
      ((stopLoop margin k (initState (fun _ => 0) w)).weight - margin) (zero_le_one (α := ℚ))
    have hsplit : f32 (F32.weightAfter margin k w - margin)
          - ((stopLoop margin k (initState (fun _ => 0) w)).weight - margin)
        = (f32 (F32.weightAfter margin k w - margin) - (F32.weightAfter margin k w - margin))
          + (F32.weightAfter margin k w
              - (stopLoop margin k (initState (fun _ => 0) w)).weight) := by
      ring
    rw [hsplit] at hlip
    have htri := abs_add
      (f32 (F32.weightAfter margin k w - margin) - (F32.weightAfter margin k w - margin))
      (F32.weightAfter margin k w - (stopLoop margin k (initState (fun _ => 0) w)).weight)
    have hdiv : |F32.weightAfter margin k w - margin| / 16777216 ≤ 1 / 16777216 :=
      div_le_div_of_nonneg_right hbound (by norm_num)
    push_cast
    have : ((k : ℚ) + 1) / 16777216 = k / 16777216 + 1 / 16777216 := by ring
    rw [this]
    linarith

/-- C12, as stated, fails in single precision: `weight_margin =
0.2f * 0.02f` is 8589935/2^31 (0.00400000019), not 0.004; and from the
starting weight 1 the weight after cycle 1 is 16710107/2^24 (0.995999992),
not `max(0, 1 - 0.004 * 1) = 0.996`. -/
theorem worked_shutdown_example_fails :
    F32.weight_margin = 8589935 / 2147483648
      ∧ F32.weight_margin ≠ 0.004
      ∧ ((0 : ℚ) ≤ 1 ∧ (1 : ℚ) ≤ 1)
      ∧ F32.weightAfter F32.weight_margin 1 1 = 16710107 / 16777216
      ∧ F32.weightAfter F32.weight_margin 1 1 ≠ max 0 (1 - 0.004 * ((1 : ℕ) : ℚ)) := by
  have hw : F32.weightAfter F32.weight_margin 1 1 = 16710107 / 16777216 := by
    show clamp (f32 (1 - F32.weight_margin)) 0 1 = _
    rw [F32.weight_margin_val, f32_one_sub_weight_margin]
    exact clamp_of_le (by norm_num) (by norm_num)
  refine ⟨F32.weight_margin_val, ?_, ⟨by norm_num, by norm_num⟩, hw, ?_⟩
  · rw [F32.weight_margin_val]
    norm_num
  · rw [hw, max_eq_right (by norm_num)]
    norm_num

/-- C12, amended. Worked shutdown example in single precision: with
`weight_rate = 0.2f`, `control_dt = 0.02f` and `stop_time = 2.0f` the stop
loop runs `stop_time_steps = 100` cycles, the decrement `weight_margin` is
8589935/2^31 (0.00400000019), and for every starting weight `w0` in `[0, 1]`
the weight after cycle `k` (any `k`, so in particular `1 ≤ k ≤ 100`) lies in
`[0, 1]` and differs from `max(0, w0 - weight_margin * k)` by at most
`k / 2^24`. -/
theorem worked_shutdown_example_rounded (w0 : ℚ) (h0 : 0 ≤ w0) (h1 : w0 ≤ 1) (k : ℕ) :
    F32.stop_time_steps = 100
      ∧ F32.weight_margin = 8589935 / 2147483648
      ∧ F32.weightAfter F32.weight_margin (k + 1) w0
          = clamp (f32 (F32.weightAfter F32.weight_margin k w0 - F32.weight_margin)) 0 1
      ∧ 0 ≤ F32.weightAfter F32.weight_margin k w0
      ∧ F32.weightAfter F32.weight_margin k w0 ≤ 1
      ∧ |F32.weightAfter F32.weight_margin k w0 - max 0 (w0 - F32.weight_margin * k)|
          ≤ k / 16777216 := by
  have hm : (0 : ℚ) ≤ F32.weight_margin ∧ F32.weight_margin ≤ 1 := by
    rw [F32.weight_margin_val]
    constructor <;> norm_num
  have hmem := F32.weightAfter_mem F32.weight_margin w0 h0 h1 k
  exact ⟨F32.stop_time_steps_val, F32.weight_margin_val, rfl, hmem.1, hmem.2,
    F32.abs_weightAfter_sub_le F32.weight_margin w0 hm.1 hm.2 h0 h1 k⟩

/-- C12 amended, for a starting weight of 1 and the 50th cycle. -/
theorem worked_shutdown_example_rounded_witness :
    F32.stop_time_steps = 100
      ∧ F32.weight_margin = 8589935 / 2147483648
      ∧ F32.weightAfter F32.weight_margin (50 + 1) 1
          = clamp (f32 (F32.weightAfter F32.weight_margin 50 1 - F32.weight_margin)) 0 1
      ∧ 0 ≤ F32.weightAfter F32.weight_margin 50 1
      ∧ F32.weightAfter F32.weight_margin 50 1 ≤ 1
      ∧ |F32.weightAfter F32.weight_margin 50 1
            - max 0 ((1 : ℚ) - F32.weight_margin * ((50 : ℕ) : ℚ))|
          ≤ ((50 : ℕ) : ℚ) / 16777216 :=
  worked_shutdown_example_rounded 1 (by norm_num) (by norm_num) 50

/-! ## The program's tables in single precision -/

/-- C18, as stated, fails for the program as written: in single precision
table position 15 is at 13421771/2^26 (0.199999973) after cycle 55, while
its stored target is 13421773/2^26, so the commanded pose does not equal
`target_pos` after cycle 55. -/
theorem program_ramp_not_after_55 :
    F32.jposAfter 55 F32.current_jpos_des F32.target_pos F32.max_joint_delta 15
        = 13421771 / 67108864
      ∧ F32.target_pos 15 = 13421773 / 67108864
      ∧ F32.jposAfter 55 F32.current_jpos_des F32.target_pos F32.max_joint_delta
          ≠ F32.target_pos := by
  have h := F32.crank_run 15 _ _ _ F32.current_jpos_des_15 F32.target_pos_15 crank15_chain
    55 (by norm_num)
  exact ⟨(Option.some.inj h.1).symm, F32.target_pos_15,
    fun hall => h.2 (by norm_num) (congrFun hall 15)⟩

/-- C18, amended. With the program's own tables and
`max_joint_delta = 0.5f * 0.02f = 5368709/2^29`, in single precision: the 19
entries other than table positions 15, 16, 21 and 22 keep their start value,
which is their target, in every cycle; each of the four crank entries
changes (already in the first cycle); the commanded pose equals `target_pos`
after cycle 56 and after every later cycle, and differs from `target_pos`
after every number of cycles below 56. -/
theorem program_ramp_rounded :
    F32.max_joint_delta = 5368709 / 536870912
      ∧ (∀ (n : ℕ) (j : Fin 23), j ≠ 15 → j ≠ 16 → j ≠ 21 → j ≠ 22 →
          F32.jposAfter n F32.current_jpos_des F32.target_pos F32.max_joint_delta j
              = F32.current_jpos_des j
            ∧ F32.jposAfter n F32.current_jpos_des F32.target_pos F32.max_joint_delta j
              = F32.target_pos j)
      ∧ (∀ j : Fin 23, j = 15 ∨ j = 16 ∨ j = 21 ∨ j = 22 →
          F32.jposAfter 1 F32.current_jpos_des F32.target_pos F32.max_joint_delta j
            ≠ F32.current_jpos_des j)
      ∧ (∀ n : ℕ, 56 ≤ n →
          F32.jposAfter n F32.current_jpos_des F32.target_pos F32.max_joint_delta
            = F32.target_pos)
      ∧ (∀ n : ℕ, n < 56 →
          F32.jposAfter n F32.current_jpos_des F32.target_pos F32.max_joint_delta
            ≠ F32.target_pos) := by
  refine ⟨F32.max_joint_delta_eq, fun n j h15 h16 h21 h22 => ?_, F32.crank_moves,
    F32.pose_reached, fun n hn hall => ?_⟩
  · have he := F32.stored_start_eq_target j h15 h16 h21 h22
    have hfix := F32.jposAfter_of_eq F32.current_jpos_des F32.target_pos F32.max_joint_delta
      F32.max_joint_delta_pos.le j (F32.f32_target_pos j) he n
    exact ⟨hfix.trans he.symm, hfix⟩
  · exact (F32.crank_run 15 _ _ _ F32.current_jpos_des_15 F32.target_pos_15 crank15_chain
      n hn.le).2 hn (congrFun hall 15)

/-! ## Frames: completeness and the weight they carry -/

/-- The frames of the lift loop: frame `i` of the written sequence is the
message at the end of cycle `i + 1`, it has `kJointCnt` motor commands, and
the slot of every configured joint holds that joint's values of that
cycle. -/
theorem liftLoop_frames (target gp gd : Fin 23 → ℚ) (vel tau d : ℚ) (cur0 : Fin 23 → ℚ)
    (w0 : ℚ) (n : ℕ) :
    ∃ s, liftLoop target gp gd vel tau d n (initState cur0 w0) = some s
      ∧ s.written.length = n
      ∧ s.msg.motor_cmd.length = kJointCnt
      ∧ ∀ i : ℕ, i < n → ∃ b,
          liftLoop target gp gd vel tau d (i + 1) (initState cur0 w0) = some b
            ∧ s.written[i]? = some b.msg
            ∧ b.msg.motor_cmd.length = kJointCnt
            ∧ ∀ j : Fin 23, b.msg.motor_cmd[(low_joints j).toNat]?
                = some { q := b.current_jpos_des j, dq := vel, tau := tau,
                         kp := gp j, kd := gd j } := by
  induction n with
  | zero =>
    exact ⟨initState cur0 w0, rfl, rfl, initMsg_length,
      fun i hi => absurd hi (Nat.not_lt_zero i)⟩
  | succ k ih =>
    obtain ⟨a, ea, na, la, hfr⟩ := ih
    obtain ⟨b, eb, lb, _⟩ := liftCycle_some target gp gd vel tau d a la
    obtain ⟨hw, _, hpop⟩ := liftCycle_frame target gp gd vel tau d a b la eb
    have hb : liftLoop target gp gd vel tau d (k + 1) (initState cur0 w0) = some b := by
      rw [liftLoop_succ, ea, Option.some_bind, eb]
    refine ⟨b, hb, ?_, lb, fun i hi => ?_⟩
    · rw [hw, List.length_append, na, List.length_singleton]
    · rcases Nat.lt_succ_iff_lt_or_eq.mp hi with hlt | heq
      · obtain ⟨bi, ebi, hget, hrest⟩ := hfr i hlt
        refine ⟨bi, ebi, ?_, hrest⟩
        rw [hw, List.getElem?_append_left (by rw [na]; exact hlt)]
        exact hget
      · refine ⟨b, heq ▸ hb, ?_, lb, hpop⟩
        rw [hw, heq, List.getElem?_append_right (by rw [na]), na, Nat.sub_self]
        rfl

/-- C7. Frame completeness: for every start pose, target, gains and bound,
and any numbers `n`, `m` of lift and stop cycles, the lift loop completes
and one frame is written per cycle; every frame written by either loop has
exactly `kJointCnt` motor commands; in the frame of every lift cycle, every
slot below `kJointCnt` is the slot of exactly one configured joint and
holds the values written for that joint in that cycle (position, velocity,
torque, kp, kd); every frame of the stop loop is the message as the lift
loop left it; the 23 entries of `low_joints` are pairwise distinct and each
addresses a slot below `kJointCnt`. -/
theorem frames_complete (cur0 target gp gd : Fin 23 → ℚ) (vel tau d w0 margin : ℚ)
    (n m : ℕ) :
    ∃ s, liftLoop target gp gd vel tau d n (initState cur0 w0) = some s
      ∧ (stopLoop margin m s).written.length = n + m
      ∧ (∀ f ∈ (stopLoop margin m s).written, f.motor_cmd.length = kJointCnt)
      ∧ (∀ i : ℕ, i < n → ∃ b,
          liftLoop target gp gd vel tau d (i + 1) (initState cur0 w0) = some b
            ∧ (stopLoop margin m s).written[i]? = some b.msg
            ∧ ∀ slot : ℕ, slot < kJointCnt →
                ∃! j : Fin 23, (low_joints j).toNat = slot
                  ∧ b.msg.motor_cmd[slot]?
                    = some { q := b.current_jpos_des j, dq := vel, tau := tau,
                             kp := gp j, kd := gd j })
      ∧ (∀ k : ℕ, k < m → (stopLoop margin m s).written[n + k]? = some s.msg)
      ∧ (∀ a b : Fin 23, a ≠ b → low_joints a ≠ low_joints b)
      ∧ (∀ j : Fin 23, (low_joints j).toNat < kJointCnt) := by
  obtain ⟨s, es, ns, ls, hfr⟩ := liftLoop_frames target gp gd vel tau d cur0 w0 n
  have hw := (stopLoop_written margin m s).2.2
  refine ⟨s, es, ?_, ?_, ?_, ?_, ?_, low_joints_lt⟩
  · rw [hw, List.length_append, ns, List.length_replicate]
  · intro f hf
    rw [hw, List.mem_append] at hf
    rcases hf with hf | hf
    · obtain ⟨i, hi, hget⟩ := List.getElem_of_mem hf
      obtain ⟨b, _, hgb, lb, _⟩ := hfr i (ns ▸ hi)
      rw [List.getElem?_eq_getElem hi, hget] at hgb
      rw [Option.some.inj hgb]
      exact lb
    · rw [List.eq_of_mem_replicate hf]
      exact ls
  · intro i hi
    obtain ⟨b, eb, hget, _, hpop⟩ := hfr i hi
    refine ⟨b, eb, ?_, fun slot hslot => ?_⟩
    · rw [hw, List.getElem?_append_left (by rw [ns]; exact hi)]
      exact hget
    · obtain ⟨j, hj⟩ := low_joints_toNat_surjective ⟨slot, hslot⟩
      refine ⟨j, ⟨hj, ?_⟩, fun j' hj' => low_joints_toNat_injective j' j (hj'.1.trans hj.symm)⟩
      rw [← show (low_joints j).toNat = slot from hj]
      exact hpop j
  · intro k hk
    rw [hw, List.getElem?_append_right (by rw [ns]; exact Nat.le_add_right n k), ns,
      Nat.add_sub_cancel_left, List.getElem?_replicate, if_pos hk]
  · intro a b hab he
    exact hab (low_joints_toNat_injective a b (congrArg JointIndex.toNat he))

end B1LowSdk
